import Mathlib

/- Shallow embedding of mirage/apt/apt_inputs.py (class AptInput): the
pointing-file parser `get_pointing_info`, the dither expander
`expand_for_dithers`, the detector expander `expand_for_detectors`, the
helper `base36encode`, the `tight_dithers` normalization, and the
detector branch of `create_input_table`.

Modelling conventions:
* Python strings are Lean `String`s; `str.split()` is `pySplit`.
* `np.int(s)` succeeds exactly when `pyInt? s = some n`; a failure is the
  Python `ValueError`.  `np.float(s)` is modelled by the validity test
  `isPyFloat`; no claim inspects the numeric value of a float-typed
  field, only whether its parse succeeds, so float-valued columns store
  the raw source token.
* Python exceptions are the constructors of `PyErr`; the source's
  `except ValueError` catches only `PyErr.valueError`; any other
  exception propagates out of `get_pointing_info`.
* Each input line is given without its trailing newline; a physical
  blank line is the empty string.  Every physical line is assumed to be
  newline-terminated, hence the source test `len(line) > 1` holds for
  every stripped line that is not the empty string.
* Python local variables that may be unbound (`obslabel`, `skip`,
  `obsnum`, `visitnum`, `detectors`) are `Option`s; reading `none`
  is the Python `NameError`.
-/

inductive PyErr
  | valueError
  | indexError
  | nameError
  | attributeError
  deriving Repr, DecidableEq

def isSpace (c : Char) : Bool := c = ' ' || c = '\t' || c = '\n' || c = '\r'

/-- Python `str.split()` (no argument): split on whitespace runs, dropping
empty pieces. -/
def pySplitGo : List Char → List Char → List String
  | [], [] => []
  | [], acc => [String.mk acc.reverse]
  | c :: rest, acc =>
    if isSpace c then
      if acc = [] then pySplitGo rest [] else String.mk acc.reverse :: pySplitGo rest []
    else pySplitGo rest (c :: acc)

def pySplit (s : String) : List String := pySplitGo s.toList []

def startsWithList : List Char → List Char → Bool
  | [], _ => true
  | _ :: _, [] => false
  | a :: as, b :: bs => a = b && startsWithList as bs

def containsList (sub : List Char) : List Char → Bool
  | [] => startsWithList sub []
  | c :: t => startsWithList sub (c :: t) || containsList sub t

/-- Python `sub in s` for strings. -/
def strContains (s sub : String) : Bool := containsList sub.toList s.toList

def digitVal (c : Char) : Option Nat :=
  if '0' ≤ c && c ≤ '9' then some (c.toNat - 48) else none

def digitsValGo : List Char → Nat → Option Nat
  | [], acc => some acc
  | c :: cs, acc =>
    match digitVal c with
    | some d => digitsValGo cs (acc * 10 + d)
    | none => none

def digitsVal : List Char → Option Nat
  | [] => none
  | l => digitsValGo l 0

/-- Python `int(s)` on a whitespace-free token: optional sign followed by
at least one decimal digit. -/
def pyInt? (s : String) : Option Int :=
  match s.toList with
  | '-' :: rest => (digitsVal rest).map (fun n => -(n : Int))
  | '+' :: rest => (digitsVal rest).map (fun n => (n : Int))
  | l => (digitsVal l).map (fun n => (n : Int))

def dropSign : List Char → List Char
  | '+' :: rest => rest
  | '-' :: rest => rest
  | l => l

def splitExp : List Char → List Char × Option (List Char)
  | [] => ([], none)
  | c :: rest =>
    if c = 'e' || c = 'E' then ([], some rest)
    else
      let p := splitExp rest
      (c :: p.1, p.2)

def mantOk (l : List Char) : Bool :=
  let intPart := l.takeWhile (fun c => (digitVal c).isSome)
  match l.dropWhile (fun c => (digitVal c).isSome) with
  | [] => !intPart.isEmpty
  | '.' :: frac => (!intPart.isEmpty || !frac.isEmpty) && frac.all (fun c => (digitVal c).isSome)
  | _ => false

def expOk (l : List Char) : Bool :=
  let l := dropSign l
  !l.isEmpty && l.all (fun c => (digitVal c).isSome)

/-- Python `float(s)` validity on a whitespace-free token (`inf`/`nan`
spellings are irrelevant to the pointing files and are not accepted). -/
def isPyFloat (s : String) : Bool :=
  let l := dropSign s.toList
  let p := splitExp l
  match p.2 with
  | none => mantOk p.1
  | some ex => mantOk p.1 && expOk ex

/-- Python `str.zfill(w)` for sign-free tokens. -/
def zfill (s : String) (w : Nat) : String :=
  String.mk (List.replicate (w - s.length) '0' ++ s.toList)

/-- Python `v.split(c)` for a single-character separator: split at every
occurrence, keeping empty pieces. -/
def splitOnCharGo (c : Char) : List Char → List Char → List (List Char)
  | [], acc => [acc.reverse]
  | x :: xs, acc =>
    if x = c then acc.reverse :: splitOnCharGo c xs []
    else splitOnCharGo c xs (x :: acc)

def pySplitChar (s : String) (c : Char) : List String :=
  (splitOnCharGo c s.toList []).map String.mk

/-- Python `str.replace(old, new)`: replace every non-overlapping
occurrence left to right.  Fuel is the input length; every step consumes
at least one character when `old` is nonempty. -/
def replaceFuel (old new : List Char) : Nat → List Char → List Char
  | 0, l => l
  | fuel + 1, l =>
    match l with
    | [] => []
    | c :: rest =>
      if !old.isEmpty && startsWithList old l then
        new ++ replaceFuel old new fuel (l.drop old.length)
      else c :: replaceFuel old new fuel rest

def strReplace (s old new : String) : String :=
  String.mk (replaceFuel old.toList new.toList s.toList.length s.toList)

/-- Python `str.strip()` (whitespace). -/
def pyStrip (s : String) : String :=
  String.mk (((s.toList.dropWhile isSpace).reverse.dropWhile isSpace).reverse)

/-- Python `line[0:2]`. -/
def first2 (s : String) : String := String.mk (s.toList.take 2)

/-- Python `s[-1]` as an `Option` (`none` would be an IndexError). -/
def lastChar (s : String) : Option Char := s.toList.getLast?

/-- Python `str.rfind(c)`: index of last occurrence, `none` for -1. -/
def rfindGo (c : Char) : List Char → Option Nat
  | [] => none
  | x :: xs =>
    match rfindGo c xs with
    | some i => some (i + 1)
    | none => if x = c then some 0 else none

/-- First piece of Python `re.split(r' \(|\)', s)`: the prefix before the
first occurrence of a space-parenthesis pair or of a closing
parenthesis. -/
def reSplitLabel : List Char → List Char
  | [] => []
  | ' ' :: '(' :: _ => []
  | ')' :: _ => []
  | c :: rest => c :: reSplitLabel rest

/-- Observation-label extraction from a `"* "` line
(apt_inputs.py lines 732-741). -/
def parseObsLabel (line : String) : String :=
  let l := line.toList
  let obslabel :=
    match rfindGo '(' l with
    | none => pyStrip (String.mk (l.drop 2))
    | some paren => pyStrip (String.mk ((l.drop 2).take (paren - 3)))
  if strContains obslabel " (" && strContains obslabel ")" then
    String.mk (reSplitLabel obslabel.toList)
  else obslabel

/-- Decimal digit list, most significant first, with structural fuel
(`n` itself strictly decreases at every division by 10, so fuel `n + 1`
never runs out). -/
def decFuel : Nat → Nat → List Char
  | 0, _ => []
  | fuel + 1, n =>
    if n < 10 then [Char.ofNat (48 + n)]
    else decFuel fuel (n / 10) ++ [Char.ofNat (48 + n % 10)]

/-- Decimal digit list of a natural number, most significant first. -/
def decDigits (n : Nat) : List Char := decFuel (n + 1) n

/-- Python `"{0:0wd}".format(n)`: zero-padded decimal of width `w`
(the sign, when present, counts toward the width). -/
def pyFormatD (n : Int) (w : Nat) : String :=
  if n < 0 then
    String.mk ('-' :: (List.replicate (w - 1 - (decDigits (-n).toNat).length) '0' ++ decDigits (-n).toNat))
  else
    String.mk (List.replicate (w - (decDigits n.toNat).length) '0' ++ decDigits n.toNat)

def b36char (n : Nat) : Char := "0123456789abcdefghijklmnopqrstuvwxyz".toList.getD n '?'

/-- The `while integer > 0` loop of `base36encode`, with structural fuel
(the argument strictly decreases at every division by 36, so fuel
`n + 1` never runs out). -/
def b36fuel : Nat → Nat → List Char → List Char
  | 0, _, enc => enc
  | fuel + 1, n, enc =>
    if 0 < n then b36fuel fuel (n / 36) (b36char (n % 36) :: enc) else enc

def b36go (n : Nat) (enc : List Char) : List Char := b36fuel (n + 1) n enc

/-- `AptInput.base36encode` (apt_inputs.py lines 331-351): repeated divmod
by 36 against the alphabet 0-9a-z, most significant digit first,
left-zero-padded to width 2 by `zfill`. -/
def base36encode (n : Nat) : String := zfill (String.mk (b36go n [])) 2

/-- The mutable state of the line loop of `get_pointing_info`
(apt_inputs.py lines 677-836): the carried parser variables and every
accumulator list, in source order. -/
structure PState where
  propid : Int
  obslabel : Option String := none
  skip : Option Bool := none
  obsnum : Option String := none
  visitnum : Option String := none
  act_counter : Nat := 1
  tar : List Int := []
  tile : List Int := []
  exp : List String := []
  dith : List Int := []
  aperture : List String := []
  targ1 : List Int := []
  targ2 : List String := []
  ra : List String := []
  dec : List String := []
  basex : List String := []
  basey : List String := []
  dithx : List String := []
  dithy : List String := []
  v2 : List String := []
  v3 : List String := []
  idlx : List String := []
  idly : List String := []
  level : List String := []
  type_str : List String := []
  expar : List Int := []
  dkpar : List Int := []
  ddist : List (Option String) := []
  observation_number : List String := []
  visit_number : List String := []
  visit_id : List String := []
  visit_grp : List String := []
  activity_id : List String := []
  observation_label : List String := []
  observation_id : List String := []
  seq_id : List String := []
  deriving Repr, DecidableEq, Inhabited

def initState (propid : Int) : PState := { propid := propid }

/-- Python `elements[i]`: `IndexError` when out of range. -/
def getI (es : List String) (i : Nat) : Except PyErr String :=
  match es.get? i with
  | some s => .ok s
  | none => .error .indexError

/-- `np.int(s)`: `ValueError` on parse failure. -/
def intOf (s : String) : Except PyErr Int :=
  match pyInt? s with
  | some n => .ok n
  | none => .error .valueError

/-- `np.float(s)`: the raw token on success, `ValueError` on failure. -/
def floatOf (s : String) : Except PyErr String :=
  if isPyFloat s then .ok s else .error .valueError

/-- Reading a possibly-unbound Python local: `NameError` when unbound. -/
def reqSome : Option α → Except PyErr α
  | some a => .ok a
  | none => .error .nameError

/-- One fallible evaluation inside the accept branch: on an exception the
state mutated so far is kept (Python lists already appended to stay
appended) and the exception is reported. -/
def step (r : Except PyErr α) (st : PState) (k : α → PState × Option PyErr) :
    PState × Option PyErr :=
  match r with
  | .error e => (st, some e)
  | .ok a => k a

/-- `ddist` entry (apt_inputs.py lines 823-826): `None` for PARALLEL rows,
otherwise `np.float(elements[21])`. -/
def ddistOf (elements : List String) (e18 : String) : Except PyErr (Option String) :=
  if e18 = "PARALLEL" then .ok none
  else
    match getI elements 21 with
    | .error e => .error e
    | .ok e21 => (floatOf e21).map some

/-- Last part of the accept branch (apt_inputs.py lines 823-832): the
`ddist` entry, the synthesized observation ID
`"V{vid}P{'00000000'}{vgrp}{seq}{act}"`, and the counter increment. -/
def arFin (vid act : String) (elements : List String) (e18 : String) (st : PState) :
    PState × Option PyErr :=
  step (ddistOf elements e18) st fun dd =>
  let st := { st with ddist := st.ddist ++ [dd] }
  let st := { st with observation_id := st.observation_id ++ ["V" ++ vid ++ "P" ++ "00000000" ++ "01" ++ "1" ++ act] }
  ({ st with act_counter := st.act_counter + 1 }, none)

/-- Accept branch, `level` through `dkpar` (apt_inputs.py lines 819-822). -/
def arPars (vid act : String) (elements : List String) (st : PState) :
    PState × Option PyErr :=
  step (getI elements 17) st fun e17 =>
  let st := { st with level := st.level ++ [e17] }
  step (getI elements 18) st fun e18 =>
  let st := { st with type_str := st.type_str ++ [e18] }
  step (getI elements 19) st fun e19 =>
  step (intOf e19) st fun n19 =>
  let st := { st with expar := st.expar ++ [n19] }
  step (getI elements 20) st fun e20 =>
  step (intOf e20) st fun n20 =>
  let st := { st with dkpar := st.dkpar ++ [n20] }
  arFin vid act elements e18 st

/-- Accept branch, the six `np.float` columns (apt_inputs.py lines
813-818). -/
def arFloats (vid act : String) (elements : List String) (st : PState) :
    PState × Option PyErr :=
  step (getI elements 11) st fun e11 =>
  step (floatOf e11) st fun f11 =>
  let st := { st with dithx := st.dithx ++ [f11] }
  step (getI elements 12) st fun e12 =>
  step (floatOf e12) st fun f12 =>
  let st := { st with dithy := st.dithy ++ [f12] }
  step (getI elements 13) st fun e13 =>
  step (floatOf e13) st fun f13 =>
  let st := { st with v2 := st.v2 ++ [f13] }
  step (getI elements 14) st fun e14 =>
  step (floatOf e14) st fun f14 =>
  let st := { st with v3 := st.v3 ++ [f14] }
  step (getI elements 15) st fun e15 =>
  step (floatOf e15) st fun f15 =>
  let st := { st with idlx := st.idlx ++ [f15] }
  step (getI elements 16) st fun e16 =>
  step (floatOf e16) st fun f16 =>
  let st := { st with idly := st.idly ++ [f16] }
  arPars vid act elements st

/-- Accept branch, `targ1` through `basey` (apt_inputs.py lines 807-812). -/
def arTargs (vid act : String) (elements : List String) (st : PState) :
    PState × Option PyErr :=
  step (getI elements 5) st fun e5 =>
  step (intOf e5) st fun n5 =>
  let st := { st with targ1 := st.targ1 ++ [n5] }
  step (getI elements 6) st fun e6 =>
  let st := { st with targ2 := st.targ2 ++ [e6] }
  step (getI elements 7) st fun e7 =>
  let st := { st with ra := st.ra ++ [e7] }
  step (getI elements 8) st fun e8 =>
  let st := { st with dec := st.dec ++ [e8] }
  step (getI elements 9) st fun e9 =>
  let st := { st with basex := st.basex ++ [e9] }
  step (getI elements 10) st fun e10 =>
  let st := { st with basey := st.basey ++ [e10] }
  arFloats vid act elements st

/-- Accept branch, `tar` through the aperture rewrite (apt_inputs.py
lines 794-806); a WFSS grism aperture is rewritten to the FULL
aperture. -/
def arNums (vid act : String) (elements : List String) (st : PState) :
    PState × Option PyErr :=
  step (getI elements 0) st fun e0 =>
  step (intOf e0) st fun n0 =>
  let st := { st with tar := st.tar ++ [n0] }
  step (getI elements 1) st fun e1 =>
  step (intOf e1) st fun n1 =>
  let st := { st with tile := st.tile ++ [n1] }
  step (getI elements 2) st fun e2 =>
  let st := { st with exp := st.exp ++ [zfill e2 5] }
  step (getI elements 3) st fun e3 =>
  step (intOf e3) st fun n3 =>
  let st := { st with dith := st.dith ++ [n3] }
  step (getI elements 4) st fun e4 =>
  let ap :=
    if strContains e4 "GRISMR_WFSS" then strReplace e4 "GRISMR_WFSS" "FULL"
    else if strContains e4 "GRISMC_WFSS" then strReplace e4 "GRISMC_WFSS" "FULL"
    else e4
  let st := { st with aperture := st.aperture ++ [ap] }
  arTargs vid act elements st

/-- The accept branch of `get_pointing_info` (apt_inputs.py lines
777-832), executed once the acceptance predicate holds and the skip flag
is false: every list append and every fallible parse in exact source
order, so that a `ValueError` raised midway leaves the earlier appends in
place (the lists are outer-scope accumulators). -/
def acceptRow (elements : List String) (st0 : PState) : PState × Option PyErr :=
  let act := base36encode st0.act_counter
  let st := { st0 with activity_id := st0.activity_id ++ [act] }
  step (reqSome st.obslabel) st fun lbl =>
  let st := { st with observation_label := st.observation_label ++ [lbl] }
  step (reqSome st.obsnum) st fun onum =>
  let st := { st with observation_number := st.observation_number ++ [onum] }
  step (reqSome st.visitnum) st fun vn =>
  let st := { st with visit_number := st.visit_number ++ [vn] }
  let vid := pyFormatD st.propid 5 ++ onum ++ vn
  let st := { st with visit_id := st.visit_id ++ [vid] }
  let st := { st with visit_grp := st.visit_grp ++ ["01"] }
  let st := { st with seq_id := st.seq_id ++ ["1"] }
  arNums vid act elements st

/-- The whole `try:` block of `get_pointing_info` (apt_inputs.py lines
757-832).  The Python conjunction uses the eager `&`, so `elements[4]`
is indexed even when `np.int(elements[1]) > 0` is false. -/
def dataTry (elements : List String) (st : PState) : PState × Option PyErr :=
  step (getI elements 1) st fun e1 =>
  step (intOf e1) st fun n1 =>
  step (getI elements 4) st fun e4 =>
  if decide (0 < n1) && (strContains e4 "NRC" || strContains e4 "NIS" ||
      strContains e4 "FGS" || strContains e4 "NRS" || strContains e4 "MIR") then
    match st.skip with
    | none => (st, some .nameError)
    | some true => ({ st with act_counter := st.act_counter + 1 }, none)
    | some false => acceptRow elements st
  else (st, none)

/-- The `except ValueError` handler around the try block: the error is
swallowed (a skip notice is printed) and the mutated state is kept. -/
def caughtVE (r : PState × Option PyErr) : PState × Option PyErr :=
  match r with
  | (st, some .valueError) => (st, none)
  | r => r

/-- The `"** "` visit-line handler (apt_inputs.py lines 749-755).  It runs
outside the try block, so its `IndexError`/`ValueError` are fatal.
Reading `skip` raises `NameError` when no `"* "` line has occurred. -/
def starStarLine (elements : List String) (st : PState) : PState × Option PyErr :=
  step (getI elements 2) st fun v =>
  match pySplitChar v ':' with
  | [a, b] =>
    let st := { st with obsnum := some (zfill a 3), visitnum := some (zfill b 3) }
    (match st.skip with
     | none => (st, some .nameError)
     | some _ => (st, none))
  | _ => (st, some .valueError)

/-- The `"* "` label-line handler (apt_inputs.py lines 732-747): set the
observation label and reset the skip flag to false. -/
def starLine (line : String) (st : PState) : PState :=
  { st with obslabel := some (parseObsLabel line), skip := some false }

/-- One iteration of the line loop of `get_pointing_info` (apt_inputs.py
lines 710-836): comment/blank/separator skip, the JWST proposal-ID
header branch, the label and visit-number handlers, then the try block
with its `except ValueError`. -/
def processLine (line : String) (st : PState) : PState × Option PyErr :=
  if (line.toList.head? == some '#') || (line == "") || strContains line "=====" then
    (st, none)
  else
    match (pySplit line).head? with
    | none => (st, some .indexError)
    | some t0 =>
      if t0 == "JWST" then
        match (pySplit line).get? 7 with
        | none => (st, some .indexError)
        | some h =>
          match pyInt? h with
          | some n => ({ st with propid := n }, none)
          | none => (st, none)
      else
        let elements := pySplit line
        let st := if first2 line == "* " then starLine line st else st
        match (if first2 line == "**" then starStarLine elements st else (st, none)) with
        | (st1, some e) => (st1, some e)
        | (st1, none) => caughtVE (dataTry elements st1)

def runLines : List String → PState → PState × Option PyErr
  | [], st => (st, none)
  | l :: ls, st =>
    match processLine l st with
    | (st1, none) => runLines ls st1
    | r => r

/-- The dictionary returned by `get_pointing_info` (apt_inputs.py lines
838-845); the lists `tar`, `tile`, `level`, `type_str`, `expar`,
`dkpar`, `ddist` are collected by the parser but not returned. -/
structure Pointing where
  exposure : List String
  dither : List Int
  aperture : List String
  targ1 : List Int
  targ2 : List String
  ra : List String
  dec : List String
  basex : List String
  basey : List String
  dithx : List String
  dithy : List String
  v2 : List String
  v3 : List String
  idlx : List String
  idly : List String
  obs_label : List String
  obs_num : List String
  visit_num : List String
  act_id : List String
  visit_id : List String
  visit_group : List String
  sequence_id : List String
  observation_id : List String
  deriving Repr, DecidableEq, Inhabited

def mkPointing (st : PState) : Pointing :=
  { exposure := st.exp, dither := st.dith, aperture := st.aperture,
    targ1 := st.targ1, targ2 := st.targ2, ra := st.ra, dec := st.dec,
    basex := st.basex, basey := st.basey, dithx := st.dithx, dithy := st.dithy,
    v2 := st.v2, v3 := st.v3, idlx := st.idlx, idly := st.idly,
    obs_label := st.observation_label, obs_num := st.observation_number,
    visit_num := st.visit_number, act_id := st.activity_id,
    visit_id := st.visit_id, visit_group := st.visit_grp,
    sequence_id := st.seq_id, observation_id := st.observation_id }

/-- `AptInput.get_pointing_info` (apt_inputs.py lines 661-846) over the
list of (newline-stripped) lines of the pointing file. -/
def get_pointing_info (lines : List String) (propid : Int) : Except PyErr Pointing :=
  match runLines lines (initState propid) with
  | (st, none) => .ok (mkPointing st)
  | (_, some e) => .error e

/-- The parser state when the line loop stops, whether it completed or a
fatal exception escaped. -/
def finalState (lines : List String) (propid : Int) : PState :=
  (runLines lines (initState propid)).1

def pOf (r : Except PyErr Pointing) : Pointing :=
  match r with
  | .ok p => p
  | .error _ => default

/- ===== XML-side compact table and the two expanders ===== -/

/-- The XML-derived columnar table consumed by `expand_for_dithers` and
`expand_for_detectors`.  The dict-of-lists is modelled by one field per
column the code inspects, plus `ProposalID` standing for the remaining
columns that are only copied (a real column: `create_input_table` reads
`xmltab['ProposalID']`).  `PrimaryDithers` and `SubpixelPositions` are
strings (the `np.array` in the per-row `entry` coerces every value to
its string form, and the code indexes `primary[0]`); `ImageDithers`
entries are integers (the code multiplies lists by them and compares
them with `> 1`); `ParallelInstrument` is a truth value. -/
structure XTable where
  PrimaryDithers : List String
  SubpixelPositions : List String
  ImageDithers : List Int
  CoordinatedParallel : List String
  ParallelInstrument : List Bool
  Module : List String
  ProposalID : List String
  deriving Repr, DecidableEq, Inhabited

/-- The freshly initialized `expanded` dict: every key of the input, each
mapped to an empty list (apt_inputs.py lines 543-545). -/
def emptyXTable : XTable :=
  { PrimaryDithers := [], SubpixelPositions := [], ImageDithers := [],
    CoordinatedParallel := [], ParallelInstrument := [], Module := [],
    ProposalID := [] }

/-- All columns have the length of `PrimaryDithers` (a dict-of-lists is a
table only when rectangular; `astropy.table.Table(indict)` raises
otherwise). -/
def rect (t : XTable) : Bool :=
  let n := t.PrimaryDithers.length
  t.SubpixelPositions.length = n && t.ImageDithers.length = n &&
  t.CoordinatedParallel.length = n && t.ParallelInstrument.length = n &&
  t.Module.length = n && t.ProposalID.length = n

/-- Row count of the table (all columns equal length under `rect`). -/
def nrows (t : XTable) : Nat := t.PrimaryDithers.length

/-- Every column holds index `i` (the per-row `entry` of the first pass
reads `item[i]` from every column, an `IndexError` otherwise). -/
def colsLongerThan (t : XTable) (i : Nat) : Bool :=
  i < t.PrimaryDithers.length && i < t.SubpixelPositions.length &&
  i < t.ImageDithers.length && i < t.CoordinatedParallel.length &&
  i < t.ParallelInstrument.length && i < t.Module.length &&
  i < t.ProposalID.length

/-- `np.all(np.array(l).astype(int) == 1)` for a string column:
`ValueError` if some entry does not parse as an integer. -/
def astypeIntAll1 (l : List String) : Except PyErr Bool := do
  let ns ← l.mapM intOf
  .ok (ns.all (· = 1))

/-- `np.all(np.array(l).astype(int) == 1)` for an integer column. -/
def allOnesInt (l : List Int) : Bool := l.all (· = 1)

/-- Subpixel factor of the first pass (apt_inputs.py lines 557-564 and
the `np.int(subpix[0][0])` of line 569): the enumerated vocabulary
`'0'/'NONE' -> 1`, `'4-Point' -> 4`, `'9-Point' -> 9`; any other string
is left unmapped and `subpix[0][0]` indexes its first character, which
`np.int` then parses. -/
def subpixReps (s : String) : Except PyErr Nat :=
  if s = "0" || s = "NONE" then .ok 1
  else if s = "4-Point" then .ok 4
  else if s = "9-Point" then .ok 9
  else
    match s.toList.head? with
    | none => .error .indexError
    | some c =>
      match pyInt? (String.mk [c]) with
      | some n => .ok n.toNat
      | none => .error .valueError

/-- Primary factor of the first pass (apt_inputs.py lines 566-569):
`'0'` is replaced by `[1]`, and otherwise `primary[0]` is the FIRST
CHARACTER of the string form of the primary-dither count, which
`np.int` then parses — a multi-digit count only contributes its leading
digit. -/
def primaryReps (s : String) : Except PyErr Nat :=
  if s = "0" then .ok 1
  else
    match s.toList.head? with
    | none => .error .indexError
    | some c =>
      match pyInt? (String.mk [c]) with
      | some n => .ok n.toNat
      | none => .error .valueError

/-- Replication count of row `i` in the first pass:
`np.int(subpix[0][0]) * np.int(primary[0])` (apt_inputs.py line 569),
after the per-row `entry` has touched every column at index `i`. -/
def repAt (t : XTable) (i : Nat) : Except PyErr Nat :=
  if colsLongerThan t i then do
    let s ← subpixReps (t.SubpixelPositions.getD i "")
    let p ← primaryReps (t.PrimaryDithers.getD i "")
    .ok (s * p)
  else .error .indexError

/-- Column expansion: row `i` contributes `reps i` adjacent copies. -/
def repExpand (reps : List Nat) (col : List α) : List α :=
  (List.zipWith (fun r v => List.replicate r v) reps col).flatten

/-- First expansion pass of `expand_for_dithers` (apt_inputs.py lines
551-572): every row `i` is appended `repAt t i` times into every
column.  The pass's partial output on an exception is local to the
callee and unobservable, so the replication counts are computed first. -/
def pass1 (t : XTable) : Except PyErr XTable := do
  let reps ← (List.range t.PrimaryDithers.length).mapM (repAt t)
  .ok { PrimaryDithers := repExpand reps t.PrimaryDithers,
        SubpixelPositions := repExpand reps t.SubpixelPositions,
        ImageDithers := repExpand reps t.ImageDithers,
        CoordinatedParallel := repExpand reps t.CoordinatedParallel,
        ParallelInstrument := repExpand reps t.ParallelInstrument,
        Module := repExpand reps t.Module,
        ProposalID := repExpand reps t.ProposalID }

/-- Row-index block contributed by row `i` in the second pass
(apt_inputs.py lines 582-600): a non-parallel coordinated row takes the
two-row slice `table[i:i+2]` (one row at the end of the table) and, when
its image-dither count exceeds 1, replicates the block that many times;
a non-coordinated row is replicated `ImageDithers[i]` times
(`np.vstack` of an empty list raises `ValueError`); a row that is
itself the parallel instrument contributes nothing of its own. -/
def blockAt (t : XTable) (n i : Nat) : Except PyErr (Option (List Nat)) :=
  let cp := t.CoordinatedParallel.getD i ""
  let par := t.ParallelInstrument.getD i false
  let idi := t.ImageDithers.getD i 0
  if cp = "true" && !par then
    let base := if i + 1 < n then [i, i + 1] else [i]
    if idi > 1 then .ok (some (List.flatten (List.replicate idi.toNat base)))
    else .ok (some base)
  else if cp = "false" then
    if idi ≤ 0 then .error .valueError
    else .ok (some (List.flatten (List.replicate idi.toNat [i])))
  else .ok none

/-- Second expansion pass of `expand_for_dithers` (apt_inputs.py lines
574-607), in terms of the list of selected source-row indices: the
blocks are stacked in row order; if no row ever starts a block the
`expanded_table` stays `None` and reading `.colnames` raises
`AttributeError`.  The returned pair also carries the `row` column the
pass added (`np.arange` values at the selected indices, i.e. the
indices themselves). -/
def pass2 (t : XTable) : Except PyErr (XTable × List Nat) := do
  if !(rect t) then .error .valueError
  else
    let n := nrows t
    let obs ← (List.range n).mapM (blockAt t n)
    let blocks := obs.filterMap id
    if blocks = [] then .error .attributeError
    else
      let idxs := blocks.flatten
      .ok ({ PrimaryDithers := idxs.map (t.PrimaryDithers.getD · ""),
             SubpixelPositions := idxs.map (t.SubpixelPositions.getD · ""),
             ImageDithers := idxs.map (t.ImageDithers.getD · 0),
             CoordinatedParallel := idxs.map (t.CoordinatedParallel.getD · ""),
             ParallelInstrument := idxs.map (t.ParallelInstrument.getD · false),
             Module := idxs.map (t.Module.getD · ""),
             ProposalID := idxs.map (t.ProposalID.getD · "") }, idxs)

/-- `AptInput.expand_for_dithers` (apt_inputs.py lines 524-621).  The
`expanded` dict starts as empty columns; the first pass fills it when
some primary-dither count differs from 1; the second pass, when some
image-dither count differs from 1, REBUILDS `expanded` from the
ORIGINAL input `indict` (the `Table(indict)` of line 578), discarding
whatever the first pass produced; if neither condition holds the empty
columns are returned.  The second component is the `row` column the
second pass leaves in the dict (`none` when the second pass did not
run). -/
def expand_for_dithers (t : XTable) : Except PyErr (XTable × Option (List Nat)) := do
  let a1 ← astypeIntAll1 t.PrimaryDithers
  let e1 ← if !a1 then pass1 t else .ok emptyXTable
  if !(allOnesInt t.ImageDithers) then do
    let p ← pass2 t
    .ok (p.1, some p.2)
  else
    .ok (e1, none)

/-- Detector list for one module designation (apt_inputs.py lines
496-515), together with the missing-`raise` bug: in the `'DHSPIL'`
branch an unknown bank letter CONSTRUCTS
`ValueError('Unknown module ...')` but does not raise it, so `detectors`
keeps the binding from the previous loop iteration (`prev`), and when
there is none the later `len(detectors)` raises `NameError`.  Only the
final `else` actually raises. -/
def moduleDetectors (m : String) (prev : Option (List String)) :
    Except PyErr (List String) :=
  if m = "ALL" then .ok ["A1", "A2", "A3", "A4", "A5", "B1", "B2", "B3", "B4", "B5"]
  else if m = "A" then .ok ["A1", "A2", "A3", "A4", "A5"]
  else if m = "B" then .ok ["B1", "B2", "B3", "B4", "B5"]
  else if strContains m "A3" then .ok ["A3"]
  else if strContains m "B4" then .ok ["B4"]
  else if strContains m "DHSPIL" then
    if lastChar m = some 'A' then .ok ["A3"]
    else if lastChar m = some 'B' then .ok ["B4"]
    else
      match prev with
      | some d => .ok d
      | none => .error .nameError
  else .error .valueError

/-- Append row `i` of every column of `t`, `k` times, to the accumulated
output columns (apt_inputs.py lines 517-519). -/
def extendAll (acc t : XTable) (i k : Nat) : XTable :=
  { PrimaryDithers := acc.PrimaryDithers ++ List.replicate k (t.PrimaryDithers.getD i ""),
    SubpixelPositions := acc.SubpixelPositions ++ List.replicate k (t.SubpixelPositions.getD i ""),
    ImageDithers := acc.ImageDithers ++ List.replicate k (t.ImageDithers.getD i 0),
    CoordinatedParallel := acc.CoordinatedParallel ++ List.replicate k (t.CoordinatedParallel.getD i ""),
    ParallelInstrument := acc.ParallelInstrument ++ List.replicate k (t.ParallelInstrument.getD i false),
    Module := acc.Module ++ List.replicate k (t.Module.getD i ""),
    ProposalID := acc.ProposalID ++ List.replicate k (t.ProposalID.getD i "") }

/-- The row loop of `expand_for_detectors` (apt_inputs.py lines
494-520), carrying the possibly-stale `detectors` binding; the first
argument is the number of loop iterations still to run (the loop is
`for i in range(n)`, so it starts at `n` with `i = 0`). -/
def detGo (t : XTable) : Nat → Nat → Option (List String) → XTable → List String →
    Except PyErr (XTable × List String)
  | 0, _, _, acc, dets => .ok (acc, dets)
  | fuel + 1, i, prev, acc, dets =>
    match t.Module.get? i with
    | none => .error .indexError
    | some m => do
      let ds ← moduleDetectors m prev
      if colsLongerThan t i then
        detGo t fuel (i + 1) (some ds) (extendAll acc t i ds.length) (dets ++ ds)
      else .error .indexError

/-- `AptInput.expand_for_detectors` (apt_inputs.py lines 473-522): one
output row per resolved detector; the loop bound is
`len(obstab['PrimaryDithers'])`; the second component is the new
`detector` column. -/
def expand_for_detectors (t : XTable) : Except PyErr (XTable × List String) :=
  detGo t t.PrimaryDithers.length 0 none emptyXTable []

/-- Characters of the Python strip set `'TIGHT'`. -/
def inTIGHT (c : Char) : Bool := c = 'T' || c = 'I' || c = 'G' || c = 'H'

/-- Python `v.strip('TIGHT')`: remove leading and trailing characters
drawn from the set T,I,G,H. -/
def stripTIGHT (v : String) : String :=
  String.mk (((v.toList.dropWhile inTIGHT).reverse.dropWhile inTIGHT).reverse)

/-- `AptInput.tight_dithers` (apt_inputs.py lines 848-875). -/
def tight_dithers (t : XTable) : XTable :=
  { t with PrimaryDithers :=
      t.PrimaryDithers.map (fun v => if strContains v "TIGHT" then stripTIGHT v else v) }

/-- The dither-expansion stage of `create_input_table` (apt_inputs.py
lines 394-410): TIGHT normalization, then `expand_for_dithers` is
BYPASSED (the table is passed through unchanged) when every
primary-dither count and every image-dither count equals 1. -/
def ditherStage (t : XTable) : Except PyErr (XTable × Option (List Nat)) :=
  let t := if t.PrimaryDithers.any (fun v => strContains v "TIGHT") then tight_dithers t else t
  do
    let a1 ← astypeIntAll1 t.PrimaryDithers
    if a1 && allOnesInt t.ImageDithers then .ok (t, none)
    else expand_for_dithers t

/-- Python `str.lower()` (ASCII). -/
def pyLower (s : String) : String := String.mk (s.toList.map Char.toLower)

/-- `obstab['Module'].count('None') == len(obstab['Module'])`
(apt_inputs.py line 440): the test selecting the non-modular branch. -/
def allModuleNone (modules : List String) : Bool :=
  modules.count "None" = modules.length

/-- The non-modular detector branch of `create_input_table`
(apt_inputs.py lines 441-451): walk the `Instrument` column; append
`'NIS'` for a NIRISS row; for an FGS row append `'G1'`/`'G2'` according
to the aperture name, and nothing when the aperture names neither
guider; for every other instrument append nothing at all.  The aperture
column is only indexed on FGS rows. -/
def nmGo : List String → List String → Except PyErr (List String)
  | [], _ => .ok []
  | inst :: is_, aps =>
    if pyLower inst = "niriss" then do
      let r ← nmGo is_ aps.tail
      .ok ("NIS" :: r)
    else if pyLower inst = "fgs" then
      match aps.head? with
      | none => .error .indexError
      | some ap =>
        if strContains ap "FGS1" then do
          let r ← nmGo is_ aps.tail
          .ok ("G1" :: r)
        else if strContains ap "FGS2" then do
          let r ← nmGo is_ aps.tail
          .ok ("G2" :: r)
        else nmGo is_ aps.tail
    else nmGo is_ aps.tail

def nonModularDetectors (instr apert : List String) : Except PyErr (List String) :=
  nmGo instr apert

/- ===== Spec-side definitions and concrete inputs used by the claim analyses ===== -/

/- ===== Concrete inputs used by the claim analyses ===== -/

/-- Per-column lengths of every column of the returned pointing dict. -/
def rowLens (p : Pointing) : List Nat :=
  [p.exposure.length, p.dither.length, p.aperture.length, p.targ1.length,
   p.targ2.length, p.ra.length, p.dec.length, p.basex.length, p.basey.length,
   p.dithx.length, p.dithy.length, p.v2.length, p.v3.length, p.idlx.length,
   p.idly.length, p.obs_label.length, p.obs_num.length, p.visit_num.length,
   p.act_id.length, p.visit_id.length, p.visit_group.length,
   p.sequence_id.length, p.observation_id.length]

def c9lines : List String :=
  ["* Obs Label", "** 1 1:1",
   "1 1 00001 1 NRC_A1_FULL 1 target 10.0 20.0 0 0 0.0 0.0 100.0 200.0 0.0 0.0 TARGET_ACQ SCIENCE 1 1 0.01"]

def c9linesFixed : List String :=
  ["* Obs Label", "** Visit 1:1",
   "1 1 00001 1 NRC_A1_FULL 1 target 10.0 20.0 0 0 0.0 0.0 100.0 200.0 0.0 0.0 TARGET_ACQ SCIENCE 1 1 0.01"]

def c2lines : List String :=
  ["* Lab", "** Visit 1:1",
   "1 1 00001 1 NRC_A1_FULL xx target 10.0 20.0 0 0 0.0 0.0 100.0 200.0 0.0 0.0 TARGET_ACQ SCIENCE 1 1 0.01"]

def c1lines : List String :=
  ["* Lab", "** Visit 1:1",
   "1 0 00001 1 NRC_A1_FULL 1 target 10.0 20.0 0 0 0.0 0.0 100.0 200.0 0.0 0.0 TARGET_ACQ SCIENCE 1 1 0.01"]

def c8lines : List String :=
  ["* L", "** Visit 1:1",
   "1 1 00001 1 NRC_A1_FULL 1 target 10.0 20.0 0 0 0.0 0.0 100.0 200.0 0.0 0.0 TARGET_ACQ SCIENCE 1 1 0.01"]

def t3 : XTable :=
  { PrimaryDithers := ["1"], SubpixelPositions := ["NONE"], ImageDithers := [1],
    CoordinatedParallel := ["false"], ParallelInstrument := [false],
    Module := ["A3"], ProposalID := ["1"] }

def t4 : XTable :=
  { PrimaryDithers := ["12"], SubpixelPositions := ["NONE"], ImageDithers := [1],
    CoordinatedParallel := ["false"], ParallelInstrument := [false],
    Module := ["A3"], ProposalID := ["p"] }

def t5 : XTable :=
  { PrimaryDithers := ["2"], SubpixelPositions := ["NONE"], ImageDithers := [2],
    CoordinatedParallel := ["false"], ParallelInstrument := [false],
    Module := ["A3"], ProposalID := ["x"] }

def t5out : XTable :=
  { PrimaryDithers := ["2", "2"], SubpixelPositions := ["NONE", "NONE"],
    ImageDithers := [2, 2], CoordinatedParallel := ["false", "false"],
    ParallelInstrument := [false, false], Module := ["A3", "A3"],
    ProposalID := ["x", "x"] }

def t6 : XTable :=
  { PrimaryDithers := ["1", "1"], SubpixelPositions := ["NONE", "NONE"],
    ImageDithers := [1, 1], CoordinatedParallel := ["false", "false"],
    ParallelInstrument := [false, false], Module := ["A", "DHSPILX"],
    ProposalID := ["p", "q"] }

def t6b : XTable :=
  { PrimaryDithers := ["1"], SubpixelPositions := ["NONE"], ImageDithers := [1],
    CoordinatedParallel := ["false"], ParallelInstrument := [false],
    Module := ["DHSPILX"], ProposalID := ["p"] }

/-- Fields of the parser state that the counter bookkeeping cares about. -/
def ErrEffect (st stF : PState) : Prop :=
  stF.act_counter = st.act_counter ∧ stF.observation_id = st.observation_id ∧
  stF.skip = st.skip

def SuccEffect (vid act : String) (st stF : PState) : Prop :=
  stF.act_counter = st.act_counter + 1 ∧
  stF.observation_id = st.observation_id ++
    ["V" ++ vid ++ "P" ++ "00000000" ++ "01" ++ "1" ++ act] ∧
  stF.skip = st.skip ∧ stF.visit_id = st.visit_id

/- ===== The activity-counter invariant ===== -/

/-- The run invariant: the counter exceeds the number of completed rows
(`observation_id` entries) by exactly 1, and the skip flag is never
true (the source sets it to `False` unconditionally). -/
def CtrInv (st : PState) : Prop :=
  st.act_counter = 1 + st.observation_id.length ∧ st.skip ≠ some true

/- ===== The non-modular detector branch of create_input_table (C10) ===== -/

/-- A row gets a detector entry in the non-modular branch exactly when
its instrument lowers to `niriss`, or lowers to `fgs` with an aperture
naming FGS1 or FGS2. -/
def detAppendP (p : String × String) : Bool :=
  pyLower p.1 = "niriss" ||
  (pyLower p.1 = "fgs" && (strContains p.2 "FGS1" || strContains p.2 "FGS2"))

/- ===== Identity of the detector expansion on single-detector modules (C3) ===== -/

/-- The module designation resolves (without any stale binding in scope)
to exactly one detector. -/
def detsOf1 (m : String) : Bool :=
  match moduleDetectors m none with
  | .ok l => l.length = 1
  | .error _ => false

/-- The single detector named by such a module. -/
def detOf1 (m : String) : String :=
  match moduleDetectors m none with
  | .ok (d :: _) => d
  | _ => ""

/-- The accumulated output columns after the rows from index `i` on have
each been appended once. -/
def catRows (acc t : XTable) (i : Nat) : XTable :=
  { PrimaryDithers := acc.PrimaryDithers ++ t.PrimaryDithers.drop i,
    SubpixelPositions := acc.SubpixelPositions ++ t.SubpixelPositions.drop i,
    ImageDithers := acc.ImageDithers ++ t.ImageDithers.drop i,
    CoordinatedParallel := acc.CoordinatedParallel ++ t.CoordinatedParallel.drop i,
    ParallelInstrument := acc.ParallelInstrument ++ t.ParallelInstrument.drop i,
    Module := acc.Module ++ t.Module.drop i,
    ProposalID := acc.ProposalID ++ t.ProposalID.drop i }

/- ===== The first-pass replication counts (C4) ===== -/

/-- The spec-side subpixel vocabulary
{"0"/"NONE" -> 1, "4-Point" -> 4, "9-Point" -> 9}. -/
def claimSubpix (s : String) : Nat :=
  if s = "0" || s = "NONE" then 1
  else if s = "4-Point" then 4
  else if s = "9-Point" then 9
  else 0

def subpixVocab (s : String) : Bool :=
  s = "0" || s = "NONE" || s = "4-Point" || s = "9-Point"

/-- The corrected primary factor: `"0"` maps to 1, any other count
contributes only the integer value of its LEADING character. -/
def claimPrimaryLead (s : String) : Nat :=
  if s = "0" then 1
  else
    match s.toList.head? with
    | some c => (digitVal c).getD 0
    | none => 0

def leadDigit (s : String) : Bool :=
  match s.toList.head? with
  | some c => (digitVal c).isSome
  | none => false

/-- The corrected per-row replication counts of the first pass. -/
def claimReps (t : XTable) : List Nat :=
  (List.range (nrows t)).map (fun i =>
    claimSubpix (t.SubpixelPositions.getD i "") * claimPrimaryLead (t.PrimaryDithers.getD i ""))

def t4w : XTable :=
  { PrimaryDithers := ["2", "3"], SubpixelPositions := ["NONE", "4-Point"],
    ImageDithers := [1, 1], CoordinatedParallel := ["false", "false"],
    ParallelInstrument := [false, false], Module := ["A3", "B4"],
    ProposalID := ["p", "q"] }

/- ===== C5: the image-dither pass runs on the original table ===== -/

/-- The `row` column the second pass produces when every row is
non-coordinated: row index `i` repeated `ImageDithers[i]` times, in
row order. -/
def imgRepIdx (t : XTable) : List Nat :=
  ((List.range (nrows t)).map (fun i =>
    List.replicate ((t.ImageDithers.getD i 0).toNat) i)).flatten

/-- A column after the image-dither expansion: the value of source row
`i` copied to each of its `ImageDithers[i]` expansion rows. -/
def imgRep {α : Type} (t : XTable) (col : List α) (d : α) : List α :=
  (imgRepIdx t).map (fun i => col.getD i d)

def t5w : XTable :=
  { PrimaryDithers := ["2", "2"], SubpixelPositions := ["NONE", "NONE"],
    ImageDithers := [2, 3], CoordinatedParallel := ["false", "false"],
    ParallelInstrument := [false, false], Module := ["A3", "A3"],
    ProposalID := ["p", "q"] }

def c8st : PState :=
  { propid := 7, obslabel := some "L", skip := some false,
    obsnum := some "001", visitnum := some "001" }

def c8es : List String :=
  pySplit "1 1 00001 1 NRC_A1_FULL 1 target 10.0 20.0 0 0 0.0 0.0 100.0 200.0 0.0 0.0 TARGET_ACQ SCIENCE 1 1 0.01"

/- ===== Theorems ===== -/

/-- C9 (counterexample): on the exact three lines of the claim the parser
raises an uncaught IndexError and yields no rows at all.  The visit line
`"** 1 1:1"` has three tokens whose second parses as a positive integer,
so the eager `&` of the acceptance test indexes `elements[4]`, which
does not exist; `IndexError` is not a `ValueError` and escapes the
handler. -/
theorem C9_counterexample : get_pointing_info c9lines 0 = .error PyErr.indexError := by rfl

/-- C9 (amended): with the visit line's second token not parseable as an
integer — the APT format `"** Visit 1:1"` — the file yields exactly one
row with `obs_num="001"`, `visit_num="001"`, `exposure="00001"`,
`aperture="NRC_A1_FULL"`, `act_id="01"` (base-36 encoding of counter
value 1, zero-padded to width 2). -/
theorem C9_theorem :
    (get_pointing_info c9linesFixed 0).isOk = true ∧
    (pOf (get_pointing_info c9linesFixed 0)).obs_num = ["001"] ∧
    (pOf (get_pointing_info c9linesFixed 0)).visit_num = ["001"] ∧
    (pOf (get_pointing_info c9linesFixed 0)).exposure = ["00001"] ∧
    (pOf (get_pointing_info c9linesFixed 0)).aperture = ["NRC_A1_FULL"] ∧
    (pOf (get_pointing_info c9linesFixed 0)).act_id = ["01"] ∧
    rowLens (pOf (get_pointing_info c9linesFixed 0)) = List.replicate 23 1 := by
  exact ⟨rfl, rfl, rfl, rfl, rfl, rfl, rfl⟩

/-- C2 (code behavior at the failing input): the candidate line passes the
acceptance predicate but its sixth field `xx` fails `np.int` at the
`targ1` append; the `ValueError` is caught, the parser finishes without
aborting — but the twelve columns appended before the failure keep one
more entry than the columns after it, so the returned table is ragged
(e.g. `aperture` has 1 entry while `targ1` and `observation_id` have 0). -/
theorem C2_code_behavior :
    (get_pointing_info c2lines 0).isOk = true ∧
    (pOf (get_pointing_info c2lines 0)).aperture.length = 1 ∧
    (pOf (get_pointing_info c2lines 0)).act_id.length = 1 ∧
    (pOf (get_pointing_info c2lines 0)).targ1.length = 0 ∧
    (pOf (get_pointing_info c2lines 0)).observation_id.length = 0 ∧
    rowLens (pOf (get_pointing_info c2lines 0)) =
      [1, 1, 1, 0, 0, 0, 0, 0, 0, 0, 0, 0, 0, 0, 0, 1, 1, 1, 1, 1, 1, 1, 0] := by
  exact ⟨rfl, rfl, rfl, rfl, rfl, rfl⟩

/-- C1 (counterexample): the file holds a single candidate data line that
reaches the try block and is rejected by the acceptance predicate
(field 1 is `0`).  The claim says the counter increments once for it,
i.e. ends at 2; in fact it stays at its initial value 1, and the parser
completes with no rows. -/
theorem C1_counterexample :
    (finalState c1lines 0).act_counter = 1 ∧
    ¬((finalState c1lines 0).act_counter = 2) ∧
    (get_pointing_info c1lines 0).isOk = true ∧
    (pOf (get_pointing_info c1lines 0)).act_id = [] := by
  exact ⟨rfl, by decide, rfl, rfl⟩

/-- C7 (counterexample): a header line whose first (and only) whitespace
token is the sentinel `JWST` raises an uncaught IndexError at
`line.split()[7]`, so the branch does not "never raise". -/
theorem C7_counterexample : get_pointing_info ["JWST"] 5 = .error PyErr.indexError := by rfl

/-- C8 (counterexample): with proposal ID 1 the accepted line synthesizes
`visit_id = "00001001001"` and
`observation_id = "V00001001001P0000000001101"`, which starts with the
literal `V` — the visit ID is NOT a prefix of the observation ID; and
with proposal ID 123456 the visit ID is 12 characters, not 11. -/
theorem C8_counterexample :
    (pOf (get_pointing_info c8lines 1)).visit_id = ["00001001001"] ∧
    (pOf (get_pointing_info c8lines 1)).observation_id = ["V00001001001P0000000001101"] ∧
    startsWithList "00001001001".toList "V00001001001P0000000001101".toList = false ∧
    (pOf (get_pointing_info c8lines 123456)).visit_id = ["123456001001"] ∧
    ¬(("123456001001" : String).length = 11) := by
  exact ⟨rfl, rfl, rfl, rfl, by decide⟩

/-- C3 (counterexample): on a one-row table whose dither counts are all 1
and whose module names a single detector, `expand_for_dithers` returns
the freshly initialized EMPTY columns (neither pass runs, and the
initial `expanded` dict is returned as-is), so the composition with
`expand_for_detectors` yields an empty table, not the input. -/
theorem C3_counterexample :
    expand_for_dithers t3 = .ok (emptyXTable, none) ∧
    expand_for_detectors emptyXTable = .ok (emptyXTable, []) ∧
    ¬(emptyXTable = t3) := by
  exact ⟨rfl, rfl, by decide⟩

/-- C4 (counterexample): one row with primary-dither count `"12"` and
subpixel pattern `"NONE"`: the claim's formula predicts 1 × 12 = 12
output rows, but `primary[0]` is the first CHARACTER `'1'` of the
string, so the pass emits exactly one row. -/
theorem C4_counterexample :
    expand_for_dithers t4 = .ok (t4, none) ∧
    t4.ProposalID.length = 1 ∧ ¬(t4.ProposalID.length = 12) := by
  exact ⟨rfl, rfl, by decide⟩

/-- C5 (counterexample): one row with primary count `"2"` and image count
2.  If the image pass operated on the primary pass's 2-row output, the
result would have 2 × 2 = 4 rows; the code returns 2 rows — the image
pass rebuilt the table from the ORIGINAL input and discarded the
primary pass's output. -/
theorem C5_counterexample :
    expand_for_dithers t5 = .ok (t5out, some [0, 0]) ∧
    t5out.ProposalID.length = 2 ∧ ¬(t5out.ProposalID.length = 4) := by
  exact ⟨rfl, rfl, by decide⟩

/-- C6 (code behavior at the failing input): the module `"DHSPILX"`
contains `DHSPIL` but ends in neither bank letter.  The intended
`ValueError` is constructed but never raised: after a first row with
module `"A"` the second row silently reuses the previous row's
detector list and emits five rows; as the first row it instead dies
with a `NameError` (`detectors` unbound) — in neither case the
documented fatal `ValueError`. -/
theorem C6_code_behavior :
    expand_for_detectors t6 =
      .ok ({ PrimaryDithers := List.replicate 10 "1",
             SubpixelPositions := List.replicate 10 "NONE",
             ImageDithers := List.replicate 10 1,
             CoordinatedParallel := List.replicate 10 "false",
             ParallelInstrument := List.replicate 10 false,
             Module := List.replicate 5 "A" ++ List.replicate 5 "DHSPILX",
             ProposalID := List.replicate 5 "p" ++ List.replicate 5 "q" },
           ["A1", "A2", "A3", "A4", "A5", "A1", "A2", "A3", "A4", "A5"]) ∧
    expand_for_detectors t6b = .error PyErr.nameError := by
  exact ⟨by rfl, rfl⟩

/- ===== Effect lemmas for the accept branch ===== -/

/-- Elimination for a successful `step`. -/
theorem step_eq {α : Type} (r : Except PyErr α) (st : PState)
    (k : α → PState × Option PyErr) (stF : PState)
    (hok : step r st k = (stF, none)) : ∃ a, r = .ok a ∧ k a = (stF, none) := by
  cases r with
  | error e => simp [step] at hok
  | ok a => exact ⟨a, rfl, hok⟩

/-- Elimination for a failing `step`. -/
theorem step_eq_err {α : Type} (r : Except PyErr α) (st : PState)
    (k : α → PState × Option PyErr) (stF : PState) (e : PyErr)
    (hok : step r st k = (stF, some e)) :
    (stF = st) ∨ (∃ a, r = .ok a ∧ k a = (stF, some e)) := by
  cases r with
  | error e2 => simp only [step, Prod.mk.injEq] at hok; exact Or.inl hok.1.symm
  | ok a => exact Or.inr ⟨a, rfl, hok⟩

theorem arFin_succ (vid act : String) (es : List String) (e18 : String)
    (st stF : PState) (hok : arFin vid act es e18 st = (stF, none)) :
    SuccEffect vid act st stF := by
  unfold arFin at hok
  obtain ⟨a, _, hok⟩ := step_eq _ _ _ _ hok
  try dsimp only at hok
  injection hok with h1 _
  subst h1
  exact ⟨rfl, by simp, rfl, rfl⟩

theorem arFin_err (vid act : String) (es : List String) (e18 : String)
    (st stF : PState) (e : PyErr) (hok : arFin vid act es e18 st = (stF, some e)) :
    ErrEffect st stF := by
  unfold arFin at hok
  rcases step_eq_err _ _ _ _ _ hok with h | ⟨a, _, hok⟩
  · subst h; exact ⟨rfl, rfl, rfl⟩
  · try dsimp only at hok; injection hok with _ h2; simp at h2

theorem reqSome_ok {α : Type} (o : Option α) (a : α) (h : reqSome o = .ok a) :
    o = some a := by
  cases o with
  | none => simp [reqSome] at h
  | some b => simpa [reqSome] using h

theorem arPars_succ (vid act : String) (es : List String) (st stF : PState)
    (hok : arPars vid act es st = (stF, none)) : SuccEffect vid act st stF := by
  unfold arPars at hok
  obtain ⟨a, _, hok⟩ := step_eq _ _ _ _ hok; try dsimp only at hok
  obtain ⟨a, _, hok⟩ := step_eq _ _ _ _ hok; try dsimp only at hok
  obtain ⟨a, _, hok⟩ := step_eq _ _ _ _ hok; try dsimp only at hok
  obtain ⟨a, _, hok⟩ := step_eq _ _ _ _ hok; try dsimp only at hok
  obtain ⟨a, _, hok⟩ := step_eq _ _ _ _ hok; try dsimp only at hok
  obtain ⟨a, _, hok⟩ := step_eq _ _ _ _ hok; try dsimp only at hok
  have h := arFin_succ _ _ _ _ _ _ hok
  exact ⟨h.1, h.2.1, h.2.2.1, h.2.2.2⟩

theorem arPars_err (vid act : String) (es : List String) (st stF : PState) (e : PyErr)
    (hok : arPars vid act es st = (stF, some e)) : ErrEffect st stF := by
  unfold arPars at hok
  rcases step_eq_err _ _ _ _ _ hok with h | ⟨a, _, hok⟩
  · subst h; exact ⟨rfl, rfl, rfl⟩
  try dsimp only at hok
  rcases step_eq_err _ _ _ _ _ hok with h | ⟨a, _, hok⟩
  · subst h; exact ⟨rfl, rfl, rfl⟩
  try dsimp only at hok
  rcases step_eq_err _ _ _ _ _ hok with h | ⟨a, _, hok⟩
  · subst h; exact ⟨rfl, rfl, rfl⟩
  try dsimp only at hok
  rcases step_eq_err _ _ _ _ _ hok with h | ⟨a, _, hok⟩
  · subst h; exact ⟨rfl, rfl, rfl⟩
  try dsimp only at hok
  rcases step_eq_err _ _ _ _ _ hok with h | ⟨a, _, hok⟩
  · subst h; exact ⟨rfl, rfl, rfl⟩
  try dsimp only at hok
  rcases step_eq_err _ _ _ _ _ hok with h | ⟨a, _, hok⟩
  · subst h; exact ⟨rfl, rfl, rfl⟩
  try dsimp only at hok
  have h := arFin_err _ _ _ _ _ _ _ hok
  exact ⟨h.1, h.2.1, h.2.2⟩

theorem arFloats_succ (vid act : String) (es : List String) (st stF : PState)
    (hok : arFloats vid act es st = (stF, none)) : SuccEffect vid act st stF := by
  unfold arFloats at hok
  obtain ⟨a, _, hok⟩ := step_eq _ _ _ _ hok; try dsimp only at hok
  obtain ⟨a, _, hok⟩ := step_eq _ _ _ _ hok; try dsimp only at hok
  obtain ⟨a, _, hok⟩ := step_eq _ _ _ _ hok; try dsimp only at hok
  obtain ⟨a, _, hok⟩ := step_eq _ _ _ _ hok; try dsimp only at hok
  obtain ⟨a, _, hok⟩ := step_eq _ _ _ _ hok; try dsimp only at hok
  obtain ⟨a, _, hok⟩ := step_eq _ _ _ _ hok; try dsimp only at hok
  obtain ⟨a, _, hok⟩ := step_eq _ _ _ _ hok; try dsimp only at hok
  obtain ⟨a, _, hok⟩ := step_eq _ _ _ _ hok; try dsimp only at hok
  obtain ⟨a, _, hok⟩ := step_eq _ _ _ _ hok; try dsimp only at hok
  obtain ⟨a, _, hok⟩ := step_eq _ _ _ _ hok; try dsimp only at hok
  obtain ⟨a, _, hok⟩ := step_eq _ _ _ _ hok; try dsimp only at hok
  obtain ⟨a, _, hok⟩ := step_eq _ _ _ _ hok; try dsimp only at hok
  have h := arPars_succ _ _ _ _ _ hok
  exact ⟨h.1, h.2.1, h.2.2.1, h.2.2.2⟩

theorem arFloats_err (vid act : String) (es : List String) (st stF : PState) (e : PyErr)
    (hok : arFloats vid act es st = (stF, some e)) : ErrEffect st stF := by
  unfold arFloats at hok
  rcases step_eq_err _ _ _ _ _ hok with h | ⟨a, _, hok⟩
  · subst h; exact ⟨rfl, rfl, rfl⟩
  try dsimp only at hok
  rcases step_eq_err _ _ _ _ _ hok with h | ⟨a, _, hok⟩
  · subst h; exact ⟨rfl, rfl, rfl⟩
  try dsimp only at hok
  rcases step_eq_err _ _ _ _ _ hok with h | ⟨a, _, hok⟩
  · subst h; exact ⟨rfl, rfl, rfl⟩
  try dsimp only at hok
  rcases step_eq_err _ _ _ _ _ hok with h | ⟨a, _, hok⟩
  · subst h; exact ⟨rfl, rfl, rfl⟩
  try dsimp only at hok
  rcases step_eq_err _ _ _ _ _ hok with h | ⟨a, _, hok⟩
  · subst h; exact ⟨rfl, rfl, rfl⟩
  try dsimp only at hok
  rcases step_eq_err _ _ _ _ _ hok with h | ⟨a, _, hok⟩
  · subst h; exact ⟨rfl, rfl, rfl⟩
  try dsimp only at hok
  rcases step_eq_err _ _ _ _ _ hok with h | ⟨a, _, hok⟩
  · subst h; exact ⟨rfl, rfl, rfl⟩
  try dsimp only at hok
  rcases step_eq_err _ _ _ _ _ hok with h | ⟨a, _, hok⟩
  · subst h; exact ⟨rfl, rfl, rfl⟩
  try dsimp only at hok
  rcases step_eq_err _ _ _ _ _ hok with h | ⟨a, _, hok⟩
  · subst h; exact ⟨rfl, rfl, rfl⟩
  try dsimp only at hok
  rcases step_eq_err _ _ _ _ _ hok with h | ⟨a, _, hok⟩
  · subst h; exact ⟨rfl, rfl, rfl⟩
  try dsimp only at hok
  rcases step_eq_err _ _ _ _ _ hok with h | ⟨a, _, hok⟩
  · subst h; exact ⟨rfl, rfl, rfl⟩
  try dsimp only at hok
  rcases step_eq_err _ _ _ _ _ hok with h | ⟨a, _, hok⟩
  · subst h; exact ⟨rfl, rfl, rfl⟩
  try dsimp only at hok
  have h := arPars_err _ _ _ _ _ _ hok
  exact ⟨h.1, h.2.1, h.2.2⟩

theorem arTargs_succ (vid act : String) (es : List String) (st stF : PState)
    (hok : arTargs vid act es st = (stF, none)) : SuccEffect vid act st stF := by
  unfold arTargs at hok
  obtain ⟨a, _, hok⟩ := step_eq _ _ _ _ hok; try dsimp only at hok
  obtain ⟨a, _, hok⟩ := step_eq _ _ _ _ hok; try dsimp only at hok
  obtain ⟨a, _, hok⟩ := step_eq _ _ _ _ hok; try dsimp only at hok
  obtain ⟨a, _, hok⟩ := step_eq _ _ _ _ hok; try dsimp only at hok
  obtain ⟨a, _, hok⟩ := step_eq _ _ _ _ hok; try dsimp only at hok
  obtain ⟨a, _, hok⟩ := step_eq _ _ _ _ hok; try dsimp only at hok
  obtain ⟨a, _, hok⟩ := step_eq _ _ _ _ hok; try dsimp only at hok
  have h := arFloats_succ _ _ _ _ _ hok
  exact ⟨h.1, h.2.1, h.2.2.1, h.2.2.2⟩

theorem arTargs_err (vid act : String) (es : List String) (st stF : PState) (e : PyErr)
    (hok : arTargs vid act es st = (stF, some e)) : ErrEffect st stF := by
  unfold arTargs at hok
  rcases step_eq_err _ _ _ _ _ hok with h | ⟨a, _, hok⟩
  · subst h; exact ⟨rfl, rfl, rfl⟩
  try dsimp only at hok
  rcases step_eq_err _ _ _ _ _ hok with h | ⟨a, _, hok⟩
  · subst h; exact ⟨rfl, rfl, rfl⟩
  try dsimp only at hok
  rcases step_eq_err _ _ _ _ _ hok with h | ⟨a, _, hok⟩
  · subst h; exact ⟨rfl, rfl, rfl⟩
  try dsimp only at hok
  rcases step_eq_err _ _ _ _ _ hok with h | ⟨a, _, hok⟩
  · subst h; exact ⟨rfl, rfl, rfl⟩
  try dsimp only at hok
  rcases step_eq_err _ _ _ _ _ hok with h | ⟨a, _, hok⟩
  · subst h; exact ⟨rfl, rfl, rfl⟩
  try dsimp only at hok
  rcases step_eq_err _ _ _ _ _ hok with h | ⟨a, _, hok⟩
  · subst h; exact ⟨rfl, rfl, rfl⟩
  try dsimp only at hok
  rcases step_eq_err _ _ _ _ _ hok with h | ⟨a, _, hok⟩
  · subst h; exact ⟨rfl, rfl, rfl⟩
  try dsimp only at hok
  have h := arFloats_err _ _ _ _ _ _ hok
  exact ⟨h.1, h.2.1, h.2.2⟩

theorem arNums_succ (vid act : String) (es : List String) (st stF : PState)
    (hok : arNums vid act es st = (stF, none)) : SuccEffect vid act st stF := by
  unfold arNums at hok
  obtain ⟨a, _, hok⟩ := step_eq _ _ _ _ hok; try dsimp only at hok
  obtain ⟨a, _, hok⟩ := step_eq _ _ _ _ hok; try dsimp only at hok
  obtain ⟨a, _, hok⟩ := step_eq _ _ _ _ hok; try dsimp only at hok
  obtain ⟨a, _, hok⟩ := step_eq _ _ _ _ hok; try dsimp only at hok
  obtain ⟨a, _, hok⟩ := step_eq _ _ _ _ hok; try dsimp only at hok
  obtain ⟨a, _, hok⟩ := step_eq _ _ _ _ hok; try dsimp only at hok
  obtain ⟨a, _, hok⟩ := step_eq _ _ _ _ hok; try dsimp only at hok
  obtain ⟨a, _, hok⟩ := step_eq _ _ _ _ hok; try dsimp only at hok
  have h := arTargs_succ _ _ _ _ _ hok
  exact ⟨h.1, h.2.1, h.2.2.1, h.2.2.2⟩

theorem arNums_err (vid act : String) (es : List String) (st stF : PState) (e : PyErr)
    (hok : arNums vid act es st = (stF, some e)) : ErrEffect st stF := by
  unfold arNums at hok
  rcases step_eq_err _ _ _ _ _ hok with h | ⟨a, _, hok⟩
  · subst h; exact ⟨rfl, rfl, rfl⟩
  try dsimp only at hok
  rcases step_eq_err _ _ _ _ _ hok with h | ⟨a, _, hok⟩
  · subst h; exact ⟨rfl, rfl, rfl⟩
  try dsimp only at hok
  rcases step_eq_err _ _ _ _ _ hok with h | ⟨a, _, hok⟩
  · subst h; exact ⟨rfl, rfl, rfl⟩
  try dsimp only at hok
  rcases step_eq_err _ _ _ _ _ hok with h | ⟨a, _, hok⟩
  · subst h; exact ⟨rfl, rfl, rfl⟩
  try dsimp only at hok
  rcases step_eq_err _ _ _ _ _ hok with h | ⟨a, _, hok⟩
  · subst h; exact ⟨rfl, rfl, rfl⟩
  try dsimp only at hok
  rcases step_eq_err _ _ _ _ _ hok with h | ⟨a, _, hok⟩
  · subst h; exact ⟨rfl, rfl, rfl⟩
  try dsimp only at hok
  rcases step_eq_err _ _ _ _ _ hok with h | ⟨a, _, hok⟩
  · subst h; exact ⟨rfl, rfl, rfl⟩
  try dsimp only at hok
  rcases step_eq_err _ _ _ _ _ hok with h | ⟨a, _, hok⟩
  · subst h; exact ⟨rfl, rfl, rfl⟩
  try dsimp only at hok
  have h := arTargs_err _ _ _ _ _ _ hok
  exact ⟨h.1, h.2.1, h.2.2⟩

/-- Success characterization of the whole accept branch: the counter is
incremented exactly once, the appended visit ID is the 05d-formatted
proposal ID followed by the stored observation and visit numbers, and
the appended observation ID wraps that visit ID between the literal
`V` and the parallel-placeholder/visit-group/sequence/activity tail. -/
theorem acceptRow_succ (es : List String) (st stF : PState)
    (hok : acceptRow es st = (stF, none)) :
    ∃ onum vn, st.obsnum = some onum ∧ st.visitnum = some vn ∧
      stF.act_counter = st.act_counter + 1 ∧
      stF.visit_id = st.visit_id ++ [pyFormatD st.propid 5 ++ onum ++ vn] ∧
      stF.observation_id = st.observation_id ++
        ["V" ++ (pyFormatD st.propid 5 ++ onum ++ vn) ++ "P" ++ "00000000" ++ "01" ++ "1" ++
          base36encode st.act_counter] ∧
      stF.skip = st.skip := by
  unfold acceptRow at hok
  try dsimp only at hok
  obtain ⟨lbl, _, hok⟩ := step_eq _ _ _ _ hok; try dsimp only at hok
  obtain ⟨onum, hon, hok⟩ := step_eq _ _ _ _ hok; try dsimp only at hok
  obtain ⟨vn, hvn, hok⟩ := step_eq _ _ _ _ hok; try dsimp only at hok
  have h := arNums_succ _ _ _ _ _ hok
  refine ⟨onum, vn, reqSome_ok _ _ hon, reqSome_ok _ _ hvn, h.1, ?_, ?_, h.2.2.1⟩
  · exact h.2.2.2
  · exact h.2.1

theorem acceptRow_err (es : List String) (st stF : PState) (e : PyErr)
    (hok : acceptRow es st = (stF, some e)) : ErrEffect st stF := by
  unfold acceptRow at hok
  try dsimp only at hok
  rcases step_eq_err _ _ _ _ _ hok with h | ⟨a, _, hok⟩
  · subst h; exact ⟨rfl, rfl, rfl⟩
  try dsimp only at hok
  rcases step_eq_err _ _ _ _ _ hok with h | ⟨a, _, hok⟩
  · subst h; exact ⟨rfl, rfl, rfl⟩
  try dsimp only at hok
  rcases step_eq_err _ _ _ _ _ hok with h | ⟨a, _, hok⟩
  · subst h; exact ⟨rfl, rfl, rfl⟩
  try dsimp only at hok
  have h := arNums_err _ _ _ _ _ _ hok
  exact ⟨h.1, h.2.1, h.2.2⟩

theorem step_pres {α : Type} (r : Except PyErr α) (st : PState)
    (k : α → PState × Option PyErr) (P : PState → Prop) (hst : P st)
    (hk : ∀ a, P (k a).1) : P ((step r st k).1) := by
  cases r with
  | error e => exact hst
  | ok a => exact hk a

theorem dataTry_inv (es : List String) (st : PState) (h : CtrInv st) :
    CtrInv (dataTry es st).1 := by
  unfold dataTry
  refine step_pres _ _ _ _ h (fun e1 => ?_)
  refine step_pres _ _ _ _ h (fun n1 => ?_)
  refine step_pres _ _ _ _ h (fun e4 => ?_)
  split
  · split
    · exact h
    · rename_i heq; exact absurd heq h.2
    · rcases h2 : acceptRow es st with ⟨stF, oe⟩
      cases oe with
      | none =>
        obtain ⟨onum, vn, _, _, hc, _, hobs, hskip⟩ := acceptRow_succ es st stF h2
        refine ⟨?_, by rw [hskip]; exact h.2⟩
        rw [hc, hobs]
        simp only [List.length_append, List.length_singleton]
        have hh := h.1
        omega
      | some e =>
        obtain ⟨hc, hobs, hskip⟩ := acceptRow_err es st stF e h2
        exact ⟨by rw [hc, hobs]; exact h.1, by rw [hskip]; exact h.2⟩
  · exact h

theorem starStar_effect (es : List String) (st : PState) :
    (starStarLine es st).1.act_counter = st.act_counter ∧
    (starStarLine es st).1.observation_id = st.observation_id ∧
    (starStarLine es st).1.skip = st.skip := by
  unfold starStarLine
  refine step_pres _ _ _
    (fun s => s.act_counter = st.act_counter ∧ s.observation_id = st.observation_id ∧
      s.skip = st.skip) ⟨rfl, rfl, rfl⟩ (fun v => ?_)
  split
  · dsimp only
    split
    · exact ⟨rfl, rfl, rfl⟩
    · exact ⟨rfl, rfl, rfl⟩
  · exact ⟨rfl, rfl, rfl⟩

theorem caughtVE_fst (r : PState × Option PyErr) : (caughtVE r).1 = r.1 := by
  rcases r with ⟨st, oe⟩
  cases oe with
  | none => rfl
  | some e => cases e <;> rfl

theorem processLine_inv (line : String) (st : PState) (h : CtrInv st) :
    CtrInv (processLine line st).1 := by
  unfold processLine
  split
  · exact h
  split
  · exact h
  split
  · split
    · exact h
    · split
      · exact ⟨h.1, h.2⟩
      · exact h
  · dsimp only
    have h1 : CtrInv (if first2 line == "* " then starLine line st else st) := by
      split
      · exact ⟨h.1, by simp [starLine]⟩
      · exact h
    set st1 := (if first2 line == "* " then starLine line st else st) with hst1
    split
    · rename_i stA e heq
      split at heq
      · have he := starStar_effect (pySplit line) st1
        rw [heq] at he
        exact ⟨by rw [he.1, he.2.1]; exact h1.1, by rw [he.2.2]; exact h1.2⟩
      · simp at heq
    · rename_i stA heq
      rw [caughtVE_fst]
      refine dataTry_inv _ _ ?_
      split at heq
      · have he := starStar_effect (pySplit line) st1
        rw [heq] at he
        exact ⟨by rw [he.1, he.2.1]; exact h1.1, by rw [he.2.2]; exact h1.2⟩
      · injection heq with hh _
        rw [← hh]; exact h1

theorem runLines_inv (lines : List String) (st : PState) (h : CtrInv st) :
    CtrInv (runLines lines st).1 := by
  induction lines generalizing st with
  | nil => exact h
  | cons l ls ih =>
    unfold runLines
    rcases hp : processLine l st with ⟨st1, oe⟩
    have h1 : CtrInv st1 := by have hh := processLine_inv l st h; rwa [hp] at hh
    cases oe with
    | none => exact ih st1 h1
    | some e => exact h1

/-- C1 (amended): for EVERY pointing file and caller proposal ID, when the
line loop stops (normally or by an escaping exception) the activity
counter equals 1 plus the number of fully completed rows (the length of
`observation_id`, the last column appended before the increment).  The
counter is thus incremented exactly once per fully parsed accepted line
and not for rejected, skip-flagged, or parse-failed lines. -/
theorem C1_theorem (lines : List String) (propid : Int) :
    (finalState lines propid).act_counter =
      1 + (finalState lines propid).observation_id.length :=
  (runLines_inv lines (initState propid) ⟨rfl, fun hh => Option.noConfusion hh⟩).1

/- ===== The JWST header branch (C7) ===== -/

/-- C7 (amended): the header branch never raises PROVIDED the line has at
least eight whitespace tokens (`tok` being the eighth): when the token
parses as an integer the proposal ID is replaced, otherwise the
caller-supplied one is kept; no other state changes and no exception is
reported.  (With fewer than eight tokens the branch raises IndexError —
see the counterexample.) -/
theorem C7_theorem (line : String) (st : PState) (tok : String)
    (hng : ((line.toList.head? == some '#') || (line == "") || strContains line "=====") = false)
    (hj : (pySplit line).head? = some "JWST")
    (htok : (pySplit line).get? 7 = some tok) :
    (processLine line st).2 = none ∧
    (processLine line st).1 =
      (match pyInt? tok with
       | some n => { st with propid := n }
       | none => st) := by
  unfold processLine
  rw [hng, hj]
  simp only [Bool.false_eq_true, if_false]
  rw [htok]
  simp only [beq_self_eq_true, if_true]
  cases hpi : pyInt? tok with
  | some n => simp [hpi]
  | none => simp [hpi]

/-- C7 (witness). -/
theorem C7_witness :
    (processLine "JWST a b c d e f 777" (initState 3)).2 = none ∧
    (processLine "JWST a b c d e f 777" (initState 3)).1 = { initState 3 with propid := 777 } := by
  have h := C7_theorem "JWST a b c d e f 777" (initState 3) "777" (by rfl) (by rfl) (by rfl)
  exact ⟨h.1, by rw [h.2]; rfl⟩

/- ===== Visit/observation identifier synthesis (C8) ===== -/

theorem decFuel_len (fuel n k : Nat) (hk : 1 ≤ k) (hn : n < 10 ^ k) :
    (decFuel fuel n).length ≤ k := by
  induction fuel generalizing n k with
  | zero => simp [decFuel]
  | succ fuel ih =>
    unfold decFuel
    split
    · simpa using hk
    · rename_i hge
      have h10 : 10 ≤ n := by omega
      have hk2 : 2 ≤ k := by
        by_contra hcon
        have hk1 : k = 1 := by omega
        subst hk1
        simp [pow_one] at hn
        omega
      have hdiv : n / 10 < 10 ^ (k - 1) := by
        apply Nat.div_lt_of_lt_mul
        have hpow : 10 ^ (k - 1) * 10 = 10 ^ k := by
          rw [← pow_succ]
          congr 1
          omega
        rw [Nat.mul_comm, hpow]
        exact hn
      have hlen := ih (n / 10) (k - 1) (by omega) hdiv
      simp only [List.length_append, List.length_singleton]
      omega

theorem pyFormatD_len5 (p : Int) (h0 : 0 ≤ p) (h : p < 100000) :
    (pyFormatD p 5).length = 5 := by
  unfold pyFormatD
  rw [if_neg (by omega)]
  have hlt : p.toNat < 10 ^ 5 := by omega
  have hle := decFuel_len (p.toNat + 1) p.toNat 5 (by omega) hlt
  show (List.replicate (5 - (decDigits p.toNat).length) '0' ++ decDigits p.toNat).length = 5
  rw [List.length_append, List.length_replicate]
  unfold decDigits
  omega

theorem startsWithList_append (l t : List Char) : startsWithList l (l ++ t) = true := by
  induction l with
  | nil => rfl
  | cons c cs ih => simpa [startsWithList] using ih

/-- C8 (amended): for every accepted pointing line (a successful run of
the accept branch) whose stored observation/visit numbers are 3
characters long and whose current proposal ID lies in [0, 99999], the
synthesized visit ID is the 5-digit zero-padded proposal ID followed by
the two 3-character numbers — exactly 11 characters — and the
synthesized observation ID is the literal `V`, then the visit ID, then
`P` + the 8-zero parallel placeholder + visit group `01` + sequence
`1` + the activity code: the visit ID is embedded immediately AFTER the
leading `V` (it is a prefix of the observation ID with its first
character removed), not as a prefix of the observation ID itself. -/
theorem C8_theorem (st stF : PState) (es : List String) (onum vn : String)
    (hok : acceptRow es st = (stF, none))
    (hobs : st.obsnum = some onum) (h3 : onum.length = 3)
    (hvn : st.visitnum = some vn) (hv3 : vn.length = 3)
    (hp0 : 0 ≤ st.propid) (hp : st.propid < 100000) :
    stF.visit_id = st.visit_id ++ [pyFormatD st.propid 5 ++ onum ++ vn] ∧
    (pyFormatD st.propid 5 ++ onum ++ vn).length = 11 ∧
    stF.observation_id = st.observation_id ++
      ["V" ++ (pyFormatD st.propid 5 ++ onum ++ vn) ++ "P" ++ "00000000" ++ "01" ++ "1" ++
        base36encode st.act_counter] ∧
    startsWithList (pyFormatD st.propid 5 ++ onum ++ vn).toList
      (("V" ++ (pyFormatD st.propid 5 ++ onum ++ vn) ++ "P" ++ "00000000" ++ "01" ++ "1" ++
        base36encode st.act_counter).toList.drop 1) = true := by
  obtain ⟨onum2, vn2, ho2, hv2, _, hvid, hoid, _⟩ := acceptRow_succ es st stF hok
  rw [hobs] at ho2
  rw [hvn] at hv2
  have heq1 : onum = onum2 := by injection ho2
  have heq2 : vn = vn2 := by injection hv2
  subst heq1
  subst heq2
  refine ⟨hvid, ?_, hoid, ?_⟩
  · rw [String.length_append, String.length_append, pyFormatD_len5 _ hp0 hp, h3, hv3]
  · have hdata : ("V" ++ (pyFormatD st.propid 5 ++ onum ++ vn) ++ "P" ++ "00000000" ++ "01" ++
        "1" ++ base36encode st.act_counter).toList =
        'V' :: ((pyFormatD st.propid 5 ++ onum ++ vn).toList ++
          ("P" ++ "00000000" ++ "01" ++ "1" ++ base36encode st.act_counter).toList) := by
      simp [String.toList, String.data_append]
    rw [hdata]
    simp only [List.drop_succ_cons, List.drop_zero]
    exact startsWithList_append _ _

/- ===== Shared list lemmas ===== -/

theorem mapM_ok {α β : Type} (l : List α) (g : α → Except PyErr β) (f : α → β)
    (h : ∀ a ∈ l, g a = .ok (f a)) : l.mapM g = .ok (l.map f) := by
  induction l with
  | nil => rfl
  | cons a as ih =>
    rw [List.mapM_cons, h a (List.mem_cons_self a as),
      ih (fun b hb => h b (List.mem_cons_of_mem _ hb))]
    rfl

theorem repExpand_length {α : Type} (reps : List Nat) (col : List α)
    (h : reps.length = col.length) : (repExpand reps col).length = reps.sum := by
  induction reps generalizing col with
  | nil => simp [repExpand]
  | cons r rs ih =>
    cases col with
    | nil => simp at h
    | cons c cs =>
      simp only [repExpand, List.zipWith_cons_cons, List.flatten_cons, List.length_append,
        List.length_replicate, List.sum_cons]
      have := ih cs (by simpa using h)
      simp only [repExpand] at this
      omega

theorem flatten_replicate_singleton {α : Type} (k : Nat) (a : α) :
    (List.replicate k [a]).flatten = List.replicate k a := by
  induction k with
  | zero => rfl
  | succ k ih => simp [List.replicate_succ, ih]

theorem nmGo_count (instr : List String) :
    ∀ (apert res : List String), instr.length ≤ apert.length →
      nmGo instr apert = .ok res →
      res.length = (instr.zip apert).countP detAppendP := by
  induction instr with
  | nil =>
    intro apert res _ hres
    simp only [nmGo] at hres
    injection hres with hres
    subst hres
    simp
  | cons inst is_ ih =>
    intro apert res hlen hres
    cases apert with
    | nil => simp at hlen
    | cons ap aps =>
      have hlen2 : is_.length ≤ aps.length := by simpa using hlen
      unfold nmGo at hres
      simp only [List.head?_cons, List.tail_cons] at hres
      by_cases h1 : pyLower inst = "niriss"
      · rw [if_pos h1] at hres
        cases hrec : nmGo is_ aps with
        | error e => rw [hrec] at hres; simp [Bind.bind, Except.bind] at hres
        | ok r =>
          rw [hrec] at hres
          simp only [Bind.bind, Except.bind, Except.ok.injEq] at hres
          subst hres
          rw [List.zip_cons_cons, List.countP_cons_of_pos _ _ (by simp [detAppendP, h1])]
          simp [ih aps r hlen2 hrec]
      · rw [if_neg h1] at hres
        by_cases h2 : pyLower inst = "fgs"
        · rw [if_pos h2] at hres
          by_cases h3 : strContains ap "FGS1" = true
          · rw [if_pos h3] at hres
            cases hrec : nmGo is_ aps with
            | error e => rw [hrec] at hres; simp [Bind.bind, Except.bind] at hres
            | ok r =>
              rw [hrec] at hres
              simp only [Bind.bind, Except.bind, Except.ok.injEq] at hres
              subst hres
              rw [List.zip_cons_cons,
                List.countP_cons_of_pos _ _ (by simp [detAppendP, h2, h3])]
              simp [ih aps r hlen2 hrec]
          · rw [if_neg h3] at hres
            by_cases h4 : strContains ap "FGS2" = true
            · rw [if_pos h4] at hres
              cases hrec : nmGo is_ aps with
              | error e => rw [hrec] at hres; simp [Bind.bind, Except.bind] at hres
              | ok r =>
                rw [hrec] at hres
                simp only [Bind.bind, Except.bind, Except.ok.injEq] at hres
                subst hres
                rw [List.zip_cons_cons,
                  List.countP_cons_of_pos _ _ (by simp [detAppendP, h2, h4])]
                simp [ih aps r hlen2 hrec]
            · rw [if_neg h4] at hres
              rw [List.zip_cons_cons,
                List.countP_cons_of_neg _ _ (by simp [detAppendP, h1, h2, h3, h4])]
              exact ih aps res hlen2 hres
        · rw [if_neg h2] at hres
          rw [List.zip_cons_cons,
            List.countP_cons_of_neg _ _ (by simp [detAppendP, h1, h2])]
          exact ih aps res hlen2 hres

/-- C10 (confirmed): in the non-modular branch the detector column
receives one entry exactly for the rows whose instrument is NIRISS, or
FGS with an aperture naming FGS1/FGS2; any row with another instrument
appends nothing, so whenever such a row exists the detector column ends
up strictly shorter than the instrument column. -/
theorem C10_theorem (instr apert res : List String)
    (hlen : instr.length ≤ apert.length)
    (hres : nonModularDetectors instr apert = .ok res) :
    res.length = (instr.zip apert).countP detAppendP ∧
    ((∃ p ∈ instr.zip apert, ¬ detAppendP p) → res.length < instr.length) := by
  have hc := nmGo_count instr apert res hlen hres
  refine ⟨hc, fun hex => ?_⟩
  obtain ⟨p, hp, hnp⟩ := hex
  rw [hc]
  have hle := List.countP_le_length (p := detAppendP) (l := instr.zip apert)
  have hne : (instr.zip apert).countP detAppendP ≠ (instr.zip apert).length := by
    intro heq
    rw [List.countP_eq_length] at heq
    exact hnp (heq p hp)
  have hziplen : (instr.zip apert).length = instr.length := by
    rw [List.length_zip]
    omega
  omega

/-- C10 (witness): a NIRISS row and a NIRSpec row — one detector entry,
detector column shorter than the two-row instrument column. -/
theorem C10_witness :
    (["NIS"] : List String).length = ((["niriss", "nirspec"].zip ["x", "y"]).countP detAppendP) ∧
    (["NIS"] : List String).length < (["niriss", "nirspec"] : List String).length := by
  have h := C10_theorem ["niriss", "nirspec"] ["x", "y"] ["NIS"] (by decide) (by rfl)
  exact ⟨h.1, h.2 ⟨("nirspec", "y"), by decide, by decide⟩⟩

theorem moduleDetectors_of1 (m : String) (hm : detsOf1 m = true)
    (prev : Option (List String)) :
    moduleDetectors m prev = .ok [detOf1 m] := by
  unfold detsOf1 at hm
  unfold detOf1
  unfold moduleDetectors at hm ⊢
  split_ifs at hm ⊢ <;> simp_all

theorem rect_lengths (t : XTable) (hrect : rect t = true) :
    t.SubpixelPositions.length = t.PrimaryDithers.length ∧
    t.ImageDithers.length = t.PrimaryDithers.length ∧
    t.CoordinatedParallel.length = t.PrimaryDithers.length ∧
    t.ParallelInstrument.length = t.PrimaryDithers.length ∧
    t.Module.length = t.PrimaryDithers.length ∧
    t.ProposalID.length = t.PrimaryDithers.length := by
  unfold rect at hrect
  simp only [Bool.and_eq_true, decide_eq_true_eq] at hrect
  exact ⟨hrect.1.1.1.1.1, hrect.1.1.1.1.2, hrect.1.1.1.2, hrect.1.1.2, hrect.1.2, hrect.2⟩

theorem colsLongerThan_of_rect (t : XTable) (i : Nat) (hrect : rect t = true)
    (hi : i < t.PrimaryDithers.length) : colsLongerThan t i = true := by
  obtain ⟨h1, h2, h3, h4, h5, h6⟩ := rect_lengths t hrect
  unfold colsLongerThan
  simp only [Bool.and_eq_true, decide_eq_true_eq]
  omega

theorem append_one_drop {α : Type} (acc l : List α) (i : Nat) (d : α)
    (h : i < l.length) :
    (acc ++ List.replicate 1 (l.getD i d)) ++ l.drop (i + 1) = acc ++ l.drop i := by
  rw [List.append_assoc, List.replicate_one, List.getD_eq_getElem l d h]
  congr 1
  rw [List.singleton_append]
  exact List.get_drop_eq_drop l i h

theorem detGo_single (t : XTable) (hrect : rect t = true)
    (hm : ∀ m ∈ t.Module, detsOf1 m = true) :
    ∀ (fuel i : Nat) (prev : Option (List String)) (acc : XTable) (dets : List String),
      i + fuel = t.PrimaryDithers.length →
      detGo t fuel i prev acc dets =
        .ok (catRows acc t i, dets ++ (t.Module.drop i).map detOf1) := by
  intro fuel
  induction fuel with
  | zero =>
    intro i prev acc dets hsum
    obtain ⟨h1, h2, h3, h4, h5, h6⟩ := rect_lengths t hrect
    unfold detGo catRows
    rw [List.drop_eq_nil_of_le (by omega), List.drop_eq_nil_of_le (by omega),
      List.drop_eq_nil_of_le (by omega), List.drop_eq_nil_of_le (by omega),
      List.drop_eq_nil_of_le (by omega), List.drop_eq_nil_of_le (by omega),
      List.drop_eq_nil_of_le (by omega)]
    simp only [List.append_nil, List.map_nil]
  | succ fuel ih =>
    intro i prev acc dets hsum
    obtain ⟨h1, h2, h3, h4, h5, h6⟩ := rect_lengths t hrect
    have hi : i < t.PrimaryDithers.length := by omega
    have him : i < t.Module.length := by omega
    unfold detGo
    have hget : t.Module.get? i = some (t.Module.get ⟨i, him⟩) := List.get?_eq_get him
    simp only [hget]
    have hmem : t.Module.get ⟨i, him⟩ ∈ t.Module := List.get_mem t.Module i him
    rw [moduleDetectors_of1 _ (hm _ hmem) prev]
    simp only [Bind.bind, Except.bind]
    rw [if_pos (colsLongerThan_of_rect t i hrect hi)]
    rw [ih (i + 1) (some [detOf1 (t.Module.get ⟨i, him⟩)])
      (extendAll acc t i [detOf1 (t.Module.get ⟨i, him⟩)].length)
      (dets ++ [detOf1 (t.Module.get ⟨i, him⟩)]) (by omega)]
    have hX : catRows (extendAll acc t i 1) t (i + 1) = catRows acc t i := by
      unfold extendAll catRows
      congr 1 <;> [exact append_one_drop _ _ _ _ (by omega);
        exact append_one_drop _ _ _ _ (by omega);
        exact append_one_drop _ _ _ _ (by omega);
        exact append_one_drop _ _ _ _ (by omega);
        exact append_one_drop _ _ _ _ (by omega);
        exact append_one_drop _ _ _ _ (by omega);
        exact append_one_drop _ _ _ _ (by omega)]
    have hDets : (dets ++ [detOf1 (t.Module.get ⟨i, him⟩)]) ++
        (t.Module.drop (i + 1)).map detOf1 = dets ++ (t.Module.drop i).map detOf1 := by
      rw [List.append_assoc]
      congr 1
      rw [← List.get_drop_eq_drop t.Module i him, List.map_cons]
      rfl
    simp only [List.length_singleton]
    rw [hX, hDets]

theorem subpixReps_vocab (s : String) (h : subpixVocab s = true) :
    subpixReps s = .ok (claimSubpix s) := by
  unfold subpixVocab at h
  simp only [Bool.or_eq_true, decide_eq_true_eq] at h
  unfold subpixReps claimSubpix
  rcases h with ((h | h) | h) | h <;> subst h <;> rfl

theorem pyInt_digit (c : Char) (d : Nat) (hc : digitVal c = some d) :
    pyInt? (String.mk [c]) = some (d : Int) := by
  unfold pyInt?
  split
  · rename_i rest heq
    have hcm : c = '-' := by
      have hl : (String.mk [c]).toList = [c] := rfl
      rw [hl] at heq
      injection heq with h1 _
    subst hcm
    simp [digitVal] at hc
  · rename_i rest heq
    have hcm : c = '+' := by
      have hl : (String.mk [c]).toList = [c] := rfl
      rw [hl] at heq
      injection heq with h1 _
    subst hcm
    simp [digitVal] at hc
  · show (digitsVal (String.mk [c]).toList).map (fun n => (n : Int)) = some (d : Int)
    have h2 : digitsVal [c] = some d := by
      unfold digitsVal digitsValGo
      rw [hc]
      simp [digitsValGo]
    have h3 : (String.mk [c]).toList = [c] := rfl
    rw [h3, h2]
    rfl

theorem primaryReps_lead (s : String) (h : leadDigit s = true) :
    primaryReps s = .ok (claimPrimaryLead s) := by
  unfold primaryReps claimPrimaryLead
  by_cases h0 : s = "0"
  · subst h0; rfl
  · rw [if_neg h0, if_neg h0]
    unfold leadDigit at h
    simp only [String.toList] at h ⊢
    cases hh : s.data.head? with
    | none =>
      rw [hh] at h
      simp at h
    | some c =>
      rw [hh] at h
      try dsimp only at h
      try dsimp only
      cases hd : digitVal c with
      | none => rw [hd] at h; simp at h
      | some d =>
        rw [pyInt_digit c d hd]
        simp [hd]

theorem repAt_claim (t : XTable) (i : Nat) (hrect : rect t = true)
    (hi : i < nrows t)
    (hsp : ∀ s ∈ t.SubpixelPositions, subpixVocab s = true)
    (hpr : ∀ s ∈ t.PrimaryDithers, leadDigit s = true) :
    repAt t i = .ok (claimSubpix (t.SubpixelPositions.getD i "") *
      claimPrimaryLead (t.PrimaryDithers.getD i "")) := by
  obtain ⟨h1, h2, h3, h4, h5, h6⟩ := rect_lengths t hrect
  unfold repAt
  rw [if_pos (colsLongerThan_of_rect t i hrect hi)]
  have hspm : t.SubpixelPositions.getD i "" ∈ t.SubpixelPositions := by
    rw [List.getD_eq_getElem _ _ (by unfold nrows at hi; omega)]
    exact List.getElem_mem _
  have hprm : t.PrimaryDithers.getD i "" ∈ t.PrimaryDithers := by
    rw [List.getD_eq_getElem _ _ (by unfold nrows at hi; omega)]
    exact List.getElem_mem _
  rw [subpixReps_vocab _ (hsp _ hspm)]
  simp only [Bind.bind, Except.bind]
  rw [primaryReps_lead _ (hpr _ hprm)]

theorem pass1_claim (t : XTable) (hrect : rect t = true)
    (hsp : ∀ s ∈ t.SubpixelPositions, subpixVocab s = true)
    (hpr : ∀ s ∈ t.PrimaryDithers, leadDigit s = true) :
    pass1 t = .ok
      { PrimaryDithers := repExpand (claimReps t) t.PrimaryDithers,
        SubpixelPositions := repExpand (claimReps t) t.SubpixelPositions,
        ImageDithers := repExpand (claimReps t) t.ImageDithers,
        CoordinatedParallel := repExpand (claimReps t) t.CoordinatedParallel,
        ParallelInstrument := repExpand (claimReps t) t.ParallelInstrument,
        Module := repExpand (claimReps t) t.Module,
        ProposalID := repExpand (claimReps t) t.ProposalID } := by
  unfold pass1
  rw [mapM_ok (List.range t.PrimaryDithers.length) (repAt t)
    (fun i => claimSubpix (t.SubpixelPositions.getD i "") *
      claimPrimaryLead (t.PrimaryDithers.getD i ""))
    (fun i hi => repAt_claim t i hrect (List.mem_range.mp hi) hsp hpr)]
  simp only [Bind.bind, Except.bind]
  rfl

/-- C4 (amended): when the first pass runs (some primary-dither count
differs from 1) and the second does not (all image-dither counts are 1),
the expander emits, for each input row `i`,
`claimSubpix(subpixel(i)) * claimPrimaryLead(primary(i))` adjacent
copies of the row — the primary factor being the integer value of the
LEADING character of the count string (`"0"` mapping to 1) — and the
total output row count is the sum of that product over all rows. -/
theorem C4_theorem (t : XTable)
    (hrect : rect t = true)
    (hsp : ∀ s ∈ t.SubpixelPositions, subpixVocab s = true)
    (hpr : ∀ s ∈ t.PrimaryDithers, leadDigit s = true)
    (hcond : astypeIntAll1 t.PrimaryDithers = .ok false)
    (himg : allOnesInt t.ImageDithers = true) :
    expand_for_dithers t = .ok
      ({ PrimaryDithers := repExpand (claimReps t) t.PrimaryDithers,
         SubpixelPositions := repExpand (claimReps t) t.SubpixelPositions,
         ImageDithers := repExpand (claimReps t) t.ImageDithers,
         CoordinatedParallel := repExpand (claimReps t) t.CoordinatedParallel,
         ParallelInstrument := repExpand (claimReps t) t.ParallelInstrument,
         Module := repExpand (claimReps t) t.Module,
         ProposalID := repExpand (claimReps t) t.ProposalID }, none) ∧
    (repExpand (claimReps t) t.ProposalID).length = (claimReps t).sum := by
  constructor
  · unfold expand_for_dithers
    rw [hcond]
    simp only [Bind.bind, Except.bind, Bool.not_false, if_true]
    rw [pass1_claim t hrect hsp hpr, himg]
    simp
  · refine repExpand_length _ _ ?_
    simp [claimReps, nrows, (rect_lengths t hrect).2.2.2.2.2]

/-- C4 (witness): two rows with counts 2 and 3 and subpixel patterns NONE
and 4-Point give 1*2 + 4*3 = 14 output rows. -/
theorem C4_witness :
    (expand_for_dithers t4w = .ok
      ({ PrimaryDithers := repExpand (claimReps t4w) t4w.PrimaryDithers,
         SubpixelPositions := repExpand (claimReps t4w) t4w.SubpixelPositions,
         ImageDithers := repExpand (claimReps t4w) t4w.ImageDithers,
         CoordinatedParallel := repExpand (claimReps t4w) t4w.CoordinatedParallel,
         ParallelInstrument := repExpand (claimReps t4w) t4w.ParallelInstrument,
         Module := repExpand (claimReps t4w) t4w.Module,
         ProposalID := repExpand (claimReps t4w) t4w.ProposalID }, none) ∧
    (repExpand (claimReps t4w) t4w.ProposalID).length = (claimReps t4w).sum) ∧
    (claimReps t4w).sum = 14 :=
  ⟨C4_theorem t4w (by rfl) (by decide) (by decide) (by rfl) (by rfl), by rfl⟩

/- ===== C3: identity at the pipeline level ===== -/

/-- C3 (amended): on a table whose primary- and image-dither counts are
all 1 and whose module designations each resolve to a single detector,
the dither stage of `create_input_table` BYPASSES `expand_for_dithers`
and passes the table through unchanged, and `expand_for_detectors`
emits every row exactly once: the output equals the input on every
column, with one new detector column of the same length.  (Feeding the
table through `expand_for_dithers` directly instead returns empty
columns — see the counterexample.) -/
theorem C3_theorem (t : XTable)
    (hrect : rect t = true)
    (hT : t.PrimaryDithers.any (fun v => strContains v "TIGHT") = false)
    (hp : ∀ s ∈ t.PrimaryDithers, pyInt? s = some 1)
    (hi : ∀ k ∈ t.ImageDithers, k = 1)
    (hm : ∀ m ∈ t.Module, detsOf1 m = true) :
    ditherStage t = .ok (t, none) ∧
    expand_for_detectors t = .ok (t, t.Module.map detOf1) ∧
    (t.Module.map detOf1).length = nrows t := by
  obtain ⟨h1, h2, h3, h4, h5, h6⟩ := rect_lengths t hrect
  have hast : astypeIntAll1 t.PrimaryDithers = .ok true := by
    unfold astypeIntAll1
    rw [mapM_ok t.PrimaryDithers intOf (fun _ => (1 : Int))
      (fun s hs => by simp [intOf, hp s hs])]
    simp only [Bind.bind, Except.bind, Except.ok.injEq]
    rw [List.all_eq_true]
    intro x hx
    obtain ⟨s, _, hsx⟩ := List.mem_map.mp hx
    simp [← hsx]
  have hall : allOnesInt t.ImageDithers = true := by
    unfold allOnesInt
    rw [List.all_eq_true]
    intro k hk
    simp [hi k hk]
  refine ⟨?_, ?_, ?_⟩
  · unfold ditherStage
    rw [hT]
    simp only [Bool.false_eq_true, if_false]
    rw [hast]
    simp only [Bind.bind, Except.bind]
    rw [hall]
    simp
  · unfold expand_for_detectors
    rw [detGo_single t hrect hm t.PrimaryDithers.length 0 none emptyXTable [] (by omega)]
    unfold catRows emptyXTable
    simp only [List.nil_append, List.drop_zero]
  · simp only [List.length_map]
    unfold nrows
    omega

/-- C3 (witness): the one-row all-ones table `t3` passes through the
dither stage unchanged and detector expansion appends only the
single-detector column. -/
theorem C3_witness :
    ditherStage t3 = .ok (t3, none) ∧
    expand_for_detectors t3 = .ok (t3, t3.Module.map detOf1) ∧
    (t3.Module.map detOf1).length = nrows t3 :=
  C3_theorem t3 (by rfl) (by rfl) (by decide) (by decide) (by decide)

theorem imgRep_flatten {α : Type} (t : XTable) (col : List α) (d : α) :
    imgRep t col d = ((List.range (nrows t)).map (fun i =>
      List.replicate ((t.ImageDithers.getD i 0).toNat) (col.getD i d))).flatten := by
  unfold imgRep imgRepIdx
  rw [List.map_flatten, List.map_map]
  congr 1
  congr 1
  funext i
  simp only [Function.comp_apply, List.map_replicate]

theorem blockAt_false (t : XTable) (n i : Nat)
    (hcp : t.CoordinatedParallel.getD i "" = "false")
    (hpos : 1 ≤ t.ImageDithers.getD i 0) :
    blockAt t n i = .ok (some (List.replicate (t.ImageDithers.getD i 0).toNat i)) := by
  unfold blockAt
  rw [hcp]
  rw [if_neg (by simp), if_pos (by simp), if_neg (by omega)]
  rw [flatten_replicate_singleton]

theorem pass2_false (t : XTable)
    (hrect : rect t = true)
    (hcp : ∀ s ∈ t.CoordinatedParallel, s = "false")
    (hpos : ∀ k ∈ t.ImageDithers, 1 ≤ k)
    (hne : t.PrimaryDithers ≠ []) :
    pass2 t = .ok
      ({ PrimaryDithers := imgRep t t.PrimaryDithers "",
         SubpixelPositions := imgRep t t.SubpixelPositions "",
         ImageDithers := imgRep t t.ImageDithers 0,
         CoordinatedParallel := imgRep t t.CoordinatedParallel "",
         ParallelInstrument := imgRep t t.ParallelInstrument false,
         Module := imgRep t t.Module "",
         ProposalID := imgRep t t.ProposalID "" }, imgRepIdx t) := by
  obtain ⟨h1, h2, h3, h4, h5, h6⟩ := rect_lengths t hrect
  unfold pass2
  rw [hrect]
  simp only [Bool.not_true, Bool.false_eq_true, if_false]
  rw [mapM_ok (List.range (nrows t)) (blockAt t (nrows t))
    (fun i => some (List.replicate ((t.ImageDithers.getD i 0).toNat) i))
    (fun i hi => by
      have hilt : i < nrows t := List.mem_range.mp hi
      have hcpm : t.CoordinatedParallel.getD i "" = "false" := by
        apply hcp
        rw [List.getD_eq_getElem _ _ (by unfold nrows at hilt; omega)]
        exact List.getElem_mem _
      have hposm : 1 ≤ t.ImageDithers.getD i 0 := by
        apply hpos
        rw [List.getD_eq_getElem _ _ (by unfold nrows at hilt; omega)]
        exact List.getElem_mem _
      exact blockAt_false t (nrows t) i hcpm hposm)]
  simp only [Bind.bind, Except.bind]
  rw [List.filterMap_map]
  have hfm : (fun a => id (some a)) = (fun a : List Nat => some a) := rfl
  rw [show (id ∘ (fun i => some (List.replicate ((t.ImageDithers.getD i 0).toNat) i))) =
    (fun i => some (List.replicate ((t.ImageDithers.getD i 0).toNat) i)) from rfl]
  rw [show (List.range (nrows t)).filterMap
      (fun i => some (List.replicate ((t.ImageDithers.getD i 0).toNat) i)) =
    (List.range (nrows t)).map
      (fun i => List.replicate ((t.ImageDithers.getD i 0).toNat) i) from
    List.filterMap_eq_map _ ▸ rfl]
  rw [if_neg (by
    simp only [ne_eq, List.map_eq_nil_iff, List.range_eq_nil]
    intro hzero
    exact hne (List.length_eq_zero.mp (by unfold nrows at hzero; omega)))]
  rfl

/-- C5 (amended): when some primary-dither count differs from 1 AND some
image-dither count differs from 1, both conditions of
`expand_for_dithers` fire, but the image-dither (second) pass operates
on the ORIGINAL input table and its result REPLACES the primary pass's
output entirely: for an all-non-coordinated table the returned table is
the image-dither expansion of the INPUT — source row `i` copied to each
of its `ImageDithers[i]` expansion rows — plus the added `row` index
column, with the primary-pass expansion discarded. -/
theorem C5_theorem (t : XTable)
    (hrect : rect t = true)
    (hsp : ∀ s ∈ t.SubpixelPositions, subpixVocab s = true)
    (hpr : ∀ s ∈ t.PrimaryDithers, leadDigit s = true)
    (hcond : astypeIntAll1 t.PrimaryDithers = .ok false)
    (himg : allOnesInt t.ImageDithers = false)
    (hcp : ∀ s ∈ t.CoordinatedParallel, s = "false")
    (hpos : ∀ k ∈ t.ImageDithers, 1 ≤ k)
    (hne : t.PrimaryDithers ≠ []) :
    expand_for_dithers t = .ok
      ({ PrimaryDithers := imgRep t t.PrimaryDithers "",
         SubpixelPositions := imgRep t t.SubpixelPositions "",
         ImageDithers := imgRep t t.ImageDithers 0,
         CoordinatedParallel := imgRep t t.CoordinatedParallel "",
         ParallelInstrument := imgRep t t.ParallelInstrument false,
         Module := imgRep t t.Module "",
         ProposalID := imgRep t t.ProposalID "" }, some (imgRepIdx t)) ∧
    imgRep t t.ProposalID "" = ((List.range (nrows t)).map (fun i =>
      List.replicate ((t.ImageDithers.getD i 0).toNat) (t.ProposalID.getD i ""))).flatten := by
  constructor
  · unfold expand_for_dithers
    rw [hcond]
    simp only [Bind.bind, Except.bind, Bool.not_false, if_true]
    rw [pass1_claim t hrect hsp hpr, himg]
    simp only [Bool.not_false, if_true]
    rw [pass2_false t hrect hcp hpos hne]
  · exact imgRep_flatten t t.ProposalID ""

/-- C5 (witness): two rows with primary counts 2 (first pass fires) and
image counts 2 and 3 — the output is the image expansion of the
original table (5 rows), not of the 4-row primary-pass output. -/
theorem C5_witness :
    (expand_for_dithers t5w = .ok
      ({ PrimaryDithers := imgRep t5w t5w.PrimaryDithers "",
         SubpixelPositions := imgRep t5w t5w.SubpixelPositions "",
         ImageDithers := imgRep t5w t5w.ImageDithers 0,
         CoordinatedParallel := imgRep t5w t5w.CoordinatedParallel "",
         ParallelInstrument := imgRep t5w t5w.ParallelInstrument false,
         Module := imgRep t5w t5w.Module "",
         ProposalID := imgRep t5w t5w.ProposalID "" }, some (imgRepIdx t5w)) ∧
    imgRep t5w t5w.ProposalID "" = ((List.range (nrows t5w)).map (fun i =>
      List.replicate ((t5w.ImageDithers.getD i 0).toNat) (t5w.ProposalID.getD i ""))).flatten) ∧
    imgRep t5w t5w.ProposalID "" = ["p", "p", "q", "q", "q"] :=
  ⟨C5_theorem t5w (by rfl) (by decide) (by decide) (by rfl) (by rfl) (by decide)
    (by decide) (by decide), by rfl⟩

/-- C8 (witness): an accepted line with proposal ID 7 and stored numbers
`001`/`001` synthesizes the 11-character visit ID `00007001001`,
embedded in the observation ID right after the leading `V`. -/
theorem C8_witness :
    (acceptRow c8es c8st).1.visit_id =
      c8st.visit_id ++ [pyFormatD c8st.propid 5 ++ "001" ++ "001"] ∧
    (pyFormatD c8st.propid 5 ++ "001" ++ "001").length = 11 ∧
    (acceptRow c8es c8st).1.observation_id = c8st.observation_id ++
      ["V" ++ (pyFormatD c8st.propid 5 ++ "001" ++ "001") ++ "P" ++ "00000000" ++ "01" ++ "1" ++
        base36encode c8st.act_counter] ∧
    startsWithList (pyFormatD c8st.propid 5 ++ "001" ++ "001").toList
      (("V" ++ (pyFormatD c8st.propid 5 ++ "001" ++ "001") ++ "P" ++ "00000000" ++ "01" ++ "1" ++
        base36encode c8st.act_counter).toList.drop 1) = true :=
  C8_theorem c8st ((acceptRow c8es c8st).1) c8es "001" "001" (by rfl) (by rfl) (by rfl)
    (by rfl) (by rfl) (by decide) (by decide)
